import Mathlib

/-!
Shallow embedding of the authoritative game-server core of
`maximumcalamity58/game-because-i-was-bored` (files `server.py`,
`server_commands.py`, `network_utils.py`, `player.py`, `platforms.py`,
`constants.py`), together with proofs settling the frozen claims about
its natural-language specification.

Modelling conventions:
- Python `float` values are modelled as `ℚ` (every numeric value the
  claims exercise is an exactly representable small decimal).
- Python `dict` (insertion ordered) is modelled as an association list
  `List (K × V)` with Python assignment semantics (`dictSet`: update in
  place when the key is present, append otherwise), `dict.get`
  (`dictGet?`: first entry with the key) and `del` (`dictDel`).
- Byte strings are `List Nat` (each element one byte).
- Network sockets are identified by a `Nat` handle; actual I/O is a
  parameter (a `fails` oracle says which sends raise, input bytes are an
  explicit stream).
- Rendering-only fields (`Player.hat_image`, pygame `Rect` objects other
  than their `x`/`y` coordinates mirrored from the grid position,
  platform rects) are not part of the model; they are never serialized
  and no claim mentions them.
-/

namespace GameServer

/-! ## Python dict operations on association lists -/

/-- Python `d[k] = v`: replace the entry in place when `k` is present,
append `(k, v)` otherwise. -/
def dictSet {K V : Type} [DecidableEq K] (d : List (K × V)) (k : K) (v : V) :
    List (K × V) :=
  if d.any (fun p => decide (p.1 = k)) then
    d.map (fun p => if p.1 = k then (k, v) else p)
  else
    d ++ [(k, v)]

/-- Python `d.get(k)` / `d[k]`: the value of the first entry with key `k`. -/
def dictGet? {K V : Type} [DecidableEq K] (d : List (K × V)) (k : K) : Option V :=
  (d.find? (fun p => decide (p.1 = k))).map (fun p => p.2)

/-- Python `del d[k]` (total: identity when the key is absent). -/
def dictDel {K V : Type} [DecidableEq K] (d : List (K × V)) (k : K) : List (K × V) :=
  d.filter (fun p => decide (p.1 ≠ k))

/-- The keys of an association list. -/
def dictKeys {K V : Type} (d : List (K × V)) : List K :=
  d.map (fun p => p.1)

/-! ## Framed transport (`network_utils.py` and the framing in `server.py`)

`int.to_bytes(k, 'big')` / `int.from_bytes(bytes, 'big')` on `Nat`,
and `recvall` over an explicit byte stream. -/

/-- Source: `n.to_bytes(k, byteorder='big')`: `k` bytes, most significant first. -/
def toBytesBE : Nat → Nat → List Nat
  | 0, _ => []
  | k + 1, n => toBytesBE k (n / 256) ++ [n % 256]

/-- Source: `int.from_bytes(bs, byteorder='big')`. -/
def fromBytesBE (bs : List Nat) : Nat :=
  bs.foldl (fun acc b => acc * 256 + b) 0

/-- Source: `sendFrame`: the bytes written for one frame — a 4-byte big-endian
length prefix followed by the payload (`server.py` sends every message as
`len(data).to_bytes(4, byteorder='big') + data`). -/
def sendFrame (payload : List Nat) : List Nat :=
  toBytesBE 4 payload.length ++ payload

/-- Source: `network_utils.recvall(sock, n)`: accumulate exactly `n` bytes from the
stream, or `none` (Python `None`) when the stream ends first.  Returns the
received bytes and the rest of the stream. -/
def recvall (stream : List Nat) (n : Nat) : Option (List Nat × List Nat) :=
  if n ≤ stream.length then some (stream.take n, stream.drop n) else none

/-- The frame-receive sequence of `Server.handle_client` (server.py lines
158–166): `recvall(conn, 4)`; on `None` report EOF; otherwise decode the
big-endian length and `recvall` that many payload bytes (`none` again if the
stream ends mid-frame). -/
def recvFrame (stream : List Nat) : Option (List Nat × List Nat) :=
  match recvall stream 4 with
  | none => none
  | some (lenBytes, rest) =>
      match recvall rest (fromBytesBE lenBytes) with
      | none => none
      | some (payload, rest₂) => some (payload, rest₂)


/-! ## Data model (`constants.py`, `player.py`, `platforms.py`) -/

/-- Source: `constants.TILE_SIZE`. -/
def TILE_SIZE : ℚ := 20

/-- Python `int(q)`: truncation toward zero (`Int.tdiv` is T-division). -/
def pyInt (q : ℚ) : Int :=
  q.num.tdiv (q.den : Int)

/-- Source: `Player` (player.py `__init__`): the fields the server reads or
writes.  Purely client-local physics scratch fields (`is_jumping`,
`on_ground`, `jump_time`, `received_position_update`) and the rendering
surface `hat_image` are omitted; `rect_x`/`rect_y` mirror
`self.rect.x`/`self.rect.y`. -/
structure Player where
  grid_x : ℚ
  grid_y : ℚ
  width : Int
  height : Int
  username : String
  hat : Option String
  velocity_y : ℚ
  velocity_x : ℚ
  rect_x : Int
  rect_y : Int
  speed : ℚ
  frozen : Bool
  is_local_player : Bool
  uuid : String
  connected : Bool
  gravity_direction : String
  deriving Repr, DecidableEq

/-- Source: `Player.__init__(x, y, width, height, username=..., hat=..., uuid=...)`:
velocity zero, `rect = pygame.Rect(int(x * TILE_SIZE), int(y * TILE_SIZE), w, h)`,
speed 300, not frozen, not local, connected, gravity down. -/
def Player.init (x y : ℚ) (width height : Int) (username : String)
    (hat : Option String) (uuid : String) : Player :=
  { grid_x := x
    grid_y := y
    width := width
    height := height
    username := username
    hat := hat
    velocity_y := 0
    velocity_x := 0
    rect_x := pyInt (x * TILE_SIZE)
    rect_y := pyInt (y * TILE_SIZE)
    speed := 300
    frozen := false
    is_local_player := false
    uuid := uuid
    connected := true
    gravity_direction := "down" }

/-- The record returned by `Player.serialize` (player.py lines 288–303). -/
structure PlayerSer where
  position : ℚ × ℚ
  velocity_x : ℚ
  velocity_y : ℚ
  speed : ℚ
  frozen : Bool
  username : String
  hat : Option String
  uuid : String
  connected : Bool
  gravity_direction : String
  deriving Repr, DecidableEq

/-- Source: `Player.serialize`. -/
def Player.serialize (p : Player) : PlayerSer :=
  { position := (p.grid_x, p.grid_y)
    velocity_x := p.velocity_x
    velocity_y := p.velocity_y
    speed := p.speed
    frozen := p.frozen
    username := p.username
    hat := p.hat
    uuid := p.uuid
    connected := p.connected
    gravity_direction := p.gravity_direction }

/-- Source: `Platforms.__init__` (platforms.py): simulation-relevant fields (the
pygame rect is rendering/collision geometry derived from these). -/
structure Platform where
  grid_x : ℚ
  grid_y : ℚ
  width_in_tiles : Int
  height_in_tiles : Int
  platform_type : String
  active : Bool
  break_timer : ℚ
  respawn_timer : ℚ
  deriving Repr, DecidableEq

/-- A freshly constructed `Platforms(...)`: active, both timers zero. -/
def Platform.init (grid_x grid_y : ℚ) (width_in_tiles height_in_tiles : Int)
    (platform_type : String) : Platform :=
  { grid_x := grid_x
    grid_y := grid_y
    width_in_tiles := width_in_tiles
    height_in_tiles := height_in_tiles
    platform_type := platform_type
    active := true
    break_timer := 0
    respawn_timer := 0 }

/-- One entry of the platform list in a broadcast frame
(`Server.broadcast_game_state`, server.py lines 326–336). -/
structure PlatformSer where
  grid_x : ℚ
  grid_y : ℚ
  width_in_tiles : Int
  height_in_tiles : Int
  platform_type : String
  active : Bool
  deriving Repr, DecidableEq

def Platform.serialize (p : Platform) : PlatformSer :=
  { grid_x := p.grid_x
    grid_y := p.grid_y
    width_in_tiles := p.width_in_tiles
    height_in_tiles := p.height_in_tiles
    platform_type := p.platform_type
    active := p.active }

/-! ## The world-state store (`Server.__init__`) -/

/-- The mutable server fields shared across workers: `self.players`
(uuid → Player), `self.clients` (conn → uuid, conns as `Nat` handles),
`self.platforms`, `self.chat_messages` (sender, text), `self.banned_players`
(a set of uuids), and the debug-bar message log. -/
structure ServerState where
  players : List (String × Player)
  clients : List (Nat × String)
  platforms : List Platform
  chat_messages : List (String × String)
  banned_players : List String
  debug_messages : List String
  deriving Repr, DecidableEq

/-- Source: `self.add_debug_message(message)`. -/
def addDebug (s : ServerState) (m : String) : ServerState :=
  { s with debug_messages := s.debug_messages ++ [m] }

/-- The broadcast frame (`data` in `Server.broadcast_game_state`). -/
structure Snapshot where
  players : List (String × PlayerSer)
  platforms : List PlatformSer
  chat : List (String × String)
  deriving Repr, DecidableEq

/-- Building the frame under the first lock acquisition of
`broadcast_game_state` (server.py lines 324–342). -/
def serializeSnapshot (s : ServerState) : Snapshot :=
  { players := s.players.map (fun q => (q.1, q.2.serialize))
    platforms := s.platforms.map Platform.serialize
    chat := s.chat_messages }

/-! ## Session manager (`Server.handle_client`) -/

/-- The identity-announcement record of the handshake
(`{uuid, username, hat}`, with the `.get` defaults already applied). -/
structure InitData where
  uuid : String
  username : String
  hat : Option String
  deriving Repr, DecidableEq

/-- The bind step of `Server.handle_client` (the `with self.lock:` block,
server.py lines 189–229).  Returns the new state and the list of
connections forcibly closed (the superseded connection, when the identity
already had a connected player and an entry in `self.clients`).
The debug f-strings are reproduced without their inner quoting and
without the unmodelled peer address. -/
def bindClient (s : ServerState) (conn : Nat) (client_uuid username : String)
    (hat : Option String) : ServerState × List Nat :=
  match dictGet? s.players client_uuid with
  | some player =>
      if player.connected then
        -- find the first (and only) existing connection bound to this uuid
        let existing_conn :=
          (s.clients.find? (fun q => decide (q.2 = client_uuid))).map (fun q => q.1)
        let clients₁ :=
          match existing_conn with
          | some c => dictDel s.clients c
          | none => s.clients
        let dbg₁ :=
          match existing_conn with
          | some _ => ["Client with UUID " ++ client_uuid ++
                       " is already connected. Disconnecting the existing connection."]
          | none => []
        let player' := { player with connected := true, username := username, hat := hat }
        ({ s with players := dictSet s.players client_uuid player'
                  clients := dictSet clients₁ conn client_uuid
                  debug_messages := s.debug_messages ++ dbg₁ ++
                    ["Player " ++ username ++ " reconnected with UUID " ++ client_uuid ++ "."] },
         match existing_conn with
         | some c => [c]
         | none => [])
      else
        let player' := { player with connected := true, username := username, hat := hat }
        ({ s with players := dictSet s.players client_uuid player'
                  clients := dictSet s.clients conn client_uuid
                  debug_messages := s.debug_messages ++
                    ["Player " ++ username ++ " reconnected with UUID " ++ client_uuid ++ "."] },
         [])
  | none =>
      -- Player(2.0, 10.0, 20, 20, username=username, hat=hat, uuid=client_uuid)
      -- followed by player.speed = 300.0 and player.is_local_player = False
      let player := { Player.init 2 10 20 20 username hat client_uuid with
                        speed := 300, is_local_player := false }
      ({ s with players := dictSet s.players client_uuid player
                clients := dictSet s.clients conn client_uuid
                debug_messages := s.debug_messages ++
                  ["Player " ++ username ++ " connected with UUID " ++ client_uuid ++ "."] },
       [])

/-- Result of the pre-streaming part of `handle_client`: either the ban
rejection (notice frame sent, socket closed, nothing bound) or a completed
bind (listing the superseded connections that were closed). -/
inductive HandshakeOutcome where
  | rejected (banFrame : String)
  | bound (closedSuperseded : List Nat)
  deriving Repr, DecidableEq

/-- Ban check followed by the bind step (server.py lines 176–229). -/
def handleHandshake (s : ServerState) (conn : Nat) (d : InitData) :
    ServerState × HandshakeOutcome :=
  if s.banned_players.contains d.uuid then
    (addDebug s ("Banned player " ++ d.username ++ " attempted to connect."),
     .rejected "You are banned from this server.")
  else
    let r := bindClient s conn d.uuid d.username d.hat
    (r.1, .bound r.2)

/-- Teardown after the streaming loop (server.py lines 279–287): look up the
uuid bound to this connection; when a player is found, mark it disconnected;
remove the connection-table entry when present; the socket is closed. -/
def teardown (s : ServerState) (conn : Nat) : ServerState :=
  let client_uuid := dictGet? s.clients conn
  let player :=
    match client_uuid with
    | some u => dictGet? s.players u
    | none => none
  let s₁ :=
    match client_uuid, player with
    | some u, some p =>
        { s with players := dictSet s.players u { p with connected := false }
                 debug_messages := s.debug_messages ++
                   ["Player " ++ p.username ++ " disconnected."] }
    | _, _ => s
  { s₁ with clients := dictDel s₁.clients conn }

/-- A deserialized streaming position-update record (`client_data`): any of
the keys may be absent.  A present `position` is a two-element tuple and is
therefore truthy, so `if position:` reduces to presence. -/
structure ClientUpdate where
  position : Option (ℚ × ℚ)
  velocity_x : Option ℚ
  velocity_y : Option ℚ
  gravity_direction : Option String
  deriving Repr, DecidableEq

/-- The player-field overwrite of an accepted streaming frame (the body
of the `if not player.frozen:` block, server.py lines 264–270): position
always (the frame carries one), velocities and the gravity direction
falling back to the current values when absent from the frame
(`client_data.get(..., current)`), the rect mirroring the grid
position. -/
def applyFrameToPlayer (p : Player) (u : ClientUpdate) (pos : ℚ × ℚ) : Player :=
  { p with
    grid_x := pos.1
    grid_y := pos.2
    velocity_x := u.velocity_x.getD p.velocity_x
    velocity_y := u.velocity_y.getD p.velocity_y
    rect_x := pyInt (pos.1 * TILE_SIZE)
    rect_y := pyInt (pos.2 * TILE_SIZE)
    gravity_direction := u.gravity_direction.getD p.gravity_direction }

/-- The store mutation of one streaming-loop iteration (server.py lines
258–271).  `none` models the uncaught-in-block `KeyError` of
`self.players[self.clients[conn]]` (caught by the loop's generic handler,
which breaks to teardown). -/
def applyClientUpdate (s : ServerState) (conn : Nat) (u : ClientUpdate) :
    Option ServerState :=
  match u.position with
  | none => some s
  | some pos =>
      match dictGet? s.clients conn with
      | none => none
      | some client_uuid =>
          match dictGet? s.players client_uuid with
          | none => none
          | some player =>
              if player.frozen then some s
              else
                some { s with players := dictSet s.players client_uuid (applyFrameToPlayer player u pos) }

/-! ## Broadcast engine (`Server.broadcast_game_state`) -/

/-- The `except` branch of the send loop for one failed target
(server.py lines 351–360): log, look up the target's uuid
(`self.clients.get(client)` — fetched before the deletion), close the
socket, delete its connection-table entry, and mark its player
disconnected when one is bound.  The source's statement sequence is
flattened into one case analysis: the deletion only touches `clients`,
so looking `players` up before or after it is the same. -/
def broadcastFailStep (s : ServerState) (c : Nat) : ServerState :=
  match dictGet? s.clients c with
  | some u =>
      match dictGet? s.players u with
      | some p =>
          { s with clients := dictDel s.clients c
                   players := dictSet s.players u { p with connected := false }
                   debug_messages := s.debug_messages ++
                     ["Error sending game state to client."] }
      | none =>
          { s with clients := dictDel s.clients c
                   debug_messages := s.debug_messages ++
                     ["Error sending game state to client."] }
  | none =>
      { s with clients := dictDel s.clients c
               debug_messages := s.debug_messages ++
                 ["Error sending game state to client."] }

/-- The send loop of `broadcast_game_state` (server.py lines 348–360),
parametrized by which sends raise (`fails`).  On a failure the target is
torn down by `broadcastFailStep` and the loop continues with the
remaining targets.  Returns the final state and the list of successful
sends (each carrying the one frame serialized before the loop). -/
def broadcastSendLoop (fails : Nat → Bool) (frame : Snapshot) :
    List Nat → ServerState → ServerState × List (Nat × Snapshot)
  | [], s => (s, [])
  | c :: rest, s =>
      if fails c then
        broadcastSendLoop fails frame rest (broadcastFailStep s c)
      else
        let r := broadcastSendLoop fails frame rest s
        (r.1, (c, frame) :: r.2)

/-- Source: `Server.broadcast_game_state(target_clients=None)` (server.py lines
318–363): serialize one frame under the lock, default the target list to
all bound connections, run the send loop, then clear the chat queue
unconditionally.  Returns (state, the frame, successful sends). -/
def broadcast_game_state (fails : Nat → Bool) (s : ServerState)
    (target_clients : Option (List Nat)) :
    ServerState × Snapshot × List (Nat × Snapshot) :=
  let frame := serializeSnapshot s
  let targets :=
    match target_clients with
    | none => s.clients.map (fun q => q.1)
    | some l => l
  let r := broadcastSendLoop fails frame targets s
  ({ r.1 with chat_messages := [] }, frame, r.2)

/-! ## The streaming loop head (`handle_client` main loop) -/

/-- Source: `conn.recv(n)` at the head of the streaming loop: up to `n` bytes,
empty exactly when the peer has closed. -/
def recvUpTo (stream : List Nat) (n : Nat) : List Nat × List Nat :=
  (stream.take n, stream.drop n)

/-- Result of one iteration of the streaming loop: either break to
teardown, or continue with an updated state and the rest of the stream. -/
inductive LoopStep where
  | disconnect
  | proceed (s₂ : ServerState) (rest : List Nat)

/-- One iteration of the `while True` loop of `handle_client` (server.py
lines 249–272): read 4 length bytes with `conn.recv` (empty ⇒ break),
decode big-endian, `recvall` the payload (`None` **or empty** ⇒ break,
since `if not data:` cannot tell `b''` from `None`), deserialize
(`parse`; failure raises and is caught ⇒ break), apply the position
update, and trigger a broadcast. -/
def clientLoopStep (fails : Nat → Bool) (parse : List Nat → Option ClientUpdate)
    (s : ServerState) (conn : Nat) (stream : List Nat) : LoopStep :=
  let r := recvUpTo stream 4
  if r.1.isEmpty then .disconnect
  else
    let data_length := fromBytesBE r.1
    match recvall r.2 data_length with
    | none => .disconnect
    | some (data, rest₂) =>
        if data.isEmpty then .disconnect
        else
          match parse data with
          | none => .disconnect
          | some upd =>
              match applyClientUpdate s conn upd with
              | none => .disconnect
              | some s₁ =>
                  let b := broadcast_game_state fails s₁ none
                  .proceed b.1 rest₂

/-! ## Command interpreter (`server_commands.py`)

Each handler is modelled as a function of the state returning the new
state together with a trace of `Event`s recording, in source order, the
store-lock acquisitions/releases (`with self.server.lock:`), each
world-state-store mutation (labelled with the assigned field), any
notice frame sent to a single connection, and any broadcast-engine
cycle triggered.  Debug-log appends are state updates, not events. -/

/-- Worker for `pySplitWs`: `acc` holds the current token reversed. -/
def splitWsAux : List Char → List Char → List String
  | [], acc => if acc.isEmpty then [] else [String.mk acc.reverse]
  | c :: rest, acc =>
      if c.isWhitespace then
        (if acc.isEmpty then [] else [String.mk acc.reverse]) ++ splitWsAux rest []
      else splitWsAux rest (c :: acc)

/-- Python `str.strip().split()`: split on whitespace runs, dropping
empty pieces. -/
def pySplitWs (s : String) : List String :=
  splitWsAux s.data []

/-- Python `str.lower()` (sufficient for the ASCII command names). -/
def pyLower (s : String) : String :=
  String.mk (s.data.map Char.toLower)

/-- The value of a list of decimal digits (`none` if some character is
not a digit; the empty list has value 0 — callers guard emptiness). -/
def digitsVal? (l : List Char) : Option Nat :=
  if l.all Char.isDigit then some (l.foldl (fun a c => a * 10 + (c.toNat - 48)) 0)
  else none

/-- Python `float(arg)` as the command handlers use it, modelled for plain
decimal numerals: optional sign, digits with at most one decimal point,
at least one digit overall.  (Scientific notation, `inf`/`nan`,
underscores and surrounding whitespace — which the builtin also
accepts — lie outside the fragment the commands are exercised with and
are not modelled.) -/
def pyFloatBody? (cs : List Char) : Option ℚ :=
  match cs.splitOn '.' with
  | [ip] =>
      if ip.isEmpty then none
      else (digitsVal? ip).map (fun n => (n : ℚ))
  | [ip, fp] =>
      if ip.isEmpty && fp.isEmpty then none
      else
        match digitsVal? ip, digitsVal? fp with
        | some n, some f => some ((n : ℚ) + (f : ℚ) / (10 : ℚ) ^ fp.length)
        | _, _ => none
  | _ => none

/-- The sign handling of `pyFloat?`. -/
def pyFloat? (s : String) : Option ℚ :=
  match s.data with
  | '-' :: r => (pyFloatBody? r).map (fun q => -q)
  | '+' :: r => pyFloatBody? r
  | cs => pyFloatBody? cs

/-- Python `int(arg)` on decimal numerals: optional sign then digits. -/
def pyIntStr? (s : String) : Option Int :=
  match s.data with
  | '-' :: r =>
      if r.isEmpty then none else (digitsVal? r).map (fun n => -(n : Int))
  | '+' :: r =>
      if r.isEmpty then none else (digitsVal? r).map (fun n => (n : Int))
  | cs =>
      if cs.isEmpty then none else (digitsVal? cs).map (fun n => (n : Int))

/-- Trace events of the modelled command handlers. -/
inductive Event where
  | acq
  | rel
  | mut (field : String)
  | notice (conn : Nat) (text : String)
  | bcast (frame : Snapshot) (sent : List (Nat × Snapshot))
  deriving Repr, DecidableEq

/-- Source: `CommandProcessor.get_player_by_identifier` (server_commands.py lines
60–72): uuid key first, then the first player whose username matches.
The key of the found entry is returned as well, so the model can write
back what Python does by mutating the aliased object.  Callers record
its lock use as `[.acq, .rel]`. -/
def get_player_by_identifier (s : ServerState) (identifier : String) :
    Option (String × Player) :=
  match dictGet? s.players identifier with
  | some p => some (identifier, p)
  | none => s.players.find? (fun q => decide (q.2.username = identifier))

/-- Source: `CommandProcessor.teleport_player` (also registered as `setpos`;
server_commands.py lines 74–95).  The three-argument arm is exactly
`len(args) == 3`. -/
def teleport_player (fails : Nat → Bool) (s : ServerState) (args : List String) :
    ServerState × List Event :=
  match args with
  | [identifier, ax, ay] =>
      match pyFloat? ax, pyFloat? ay with
      | some x, some y =>
          match get_player_by_identifier s identifier with
          | some (u, p) =>
              let p' := { p with grid_x := x, grid_y := y,
                                 rect_x := pyInt (x * TILE_SIZE),
                                 rect_y := pyInt (y * TILE_SIZE) }
              let s₁ := addDebug { s with players := dictSet s.players u p' }
                          ("Teleported " ++ p.username ++ ".")
              let b := broadcast_game_state fails s₁ none
              (b.1, [.acq, .rel, .acq, .mut "grid_x", .mut "grid_y",
                     .mut "rect_x", .mut "rect_y", .rel, .bcast b.2.1 b.2.2])
          | none =>
              (addDebug s ("No player found with identifier " ++ identifier ++ "."),
               [.acq, .rel])
      | _, _ => (addDebug s "Error: x and y must be numbers.", [])
  | _ => (addDebug s "Usage: teleport [username/uuid] [x] [y]", [])

/-- Source: `CommandProcessor.add_position` (lines 97–118). -/
def add_position (fails : Nat → Bool) (s : ServerState) (args : List String) :
    ServerState × List Event :=
  match args with
  | [identifier, adx, ady] =>
      match pyFloat? adx, pyFloat? ady with
      | some dx, some dy =>
          match get_player_by_identifier s identifier with
          | some (u, p) =>
              let p' := { p with grid_x := p.grid_x + dx, grid_y := p.grid_y + dy,
                                 rect_x := pyInt ((p.grid_x + dx) * TILE_SIZE),
                                 rect_y := pyInt ((p.grid_y + dy) * TILE_SIZE) }
              let s₁ := addDebug { s with players := dictSet s.players u p' }
                          ("Moved player " ++ p.username ++ ".")
              let b := broadcast_game_state fails s₁ none
              (b.1, [.acq, .rel, .acq, .mut "grid_x", .mut "grid_y",
                     .mut "rect_x", .mut "rect_y", .rel, .bcast b.2.1 b.2.2])
          | none =>
              (addDebug s ("No player found with identifier " ++ identifier ++ "."),
               [.acq, .rel])
      | _, _ => (addDebug s "Invalid arguments. dx and dy must be numbers.", [])
  | _ => (addDebug s "Usage: add [username/uuid] [dx] [dy]", [])

/-- Source: `CommandProcessor.kick_player` (lines 120–143): under the lock, find
the first connection bound to the target uuid, send a kick notice, close
it and delete its entry, then mark the player disconnected. -/
def kick_player (fails : Nat → Bool) (s : ServerState) (args : List String) :
    ServerState × List Event :=
  match args with
  | [identifier] =>
      match get_player_by_identifier s identifier with
      | some (u, p) =>
          let hit := s.clients.find? (fun q => decide (q.2 = p.uuid))
          let clients₁ :=
            match hit with
            | some q => dictDel s.clients q.1
            | none => s.clients
          let evs₁ :=
            match hit with
            | some q => [Event.notice q.1 "You have been kicked from the server.",
                         Event.mut "clients"]
            | none => []
          let s₁ := { s with clients := clients₁,
                             players := dictSet s.players u { p with connected := false } }
          let s₂ := addDebug s₁ ("Kicked player " ++ p.username ++ ".")
          let b := broadcast_game_state fails s₂ none
          (b.1, [Event.acq, Event.rel, Event.acq] ++ evs₁ ++
                [Event.mut "connected", Event.rel, Event.bcast b.2.1 b.2.2])
      | none =>
          (addDebug s ("No player found with identifier " ++ identifier ++ "."),
           [.acq, .rel])
  | _ => (addDebug s "Usage: kick [username/uuid]", [])

/-- Python `set.add` on the banned-players set (modelled as a
duplicate-free list). -/
def banAdd (l : List String) (u : String) : List String :=
  if l.contains u then l else l ++ [u]

/-- Source: `CommandProcessor.ban_player` (lines 145–171): add the uuid to the ban
set (outside any lock), then — under the lock — kick as in `kick_player`
with a ban notice. -/
def ban_player (fails : Nat → Bool) (s : ServerState) (args : List String) :
    ServerState × List Event :=
  match args with
  | [identifier] =>
      match get_player_by_identifier s identifier with
      | some (u, p) =>
          let s₀ := { s with banned_players := banAdd s.banned_players p.uuid }
          let hit := s₀.clients.find? (fun q => decide (q.2 = p.uuid))
          let clients₁ :=
            match hit with
            | some q => dictDel s₀.clients q.1
            | none => s₀.clients
          let evs₁ :=
            match hit with
            | some q => [Event.notice q.1 "You have been banned from the server.",
                         Event.mut "clients"]
            | none => []
          let s₁ := { s₀ with clients := clients₁,
                              players := dictSet s₀.players u { p with connected := false } }
          let s₂ := addDebug s₁ ("Banned player " ++ p.username ++ ".")
          let b := broadcast_game_state fails s₂ none
          (b.1, [Event.acq, Event.rel, Event.mut "banned_players", Event.acq] ++ evs₁ ++
                [Event.mut "connected", Event.rel, Event.bcast b.2.1 b.2.2])
      | none =>
          (addDebug s ("No player found with identifier " ++ identifier ++ "."),
           [.acq, .rel])
  | _ => (addDebug s "Usage: ban [username/uuid]", [])

/-- Source: `CommandProcessor.unban_player` (lines 173–185).  No broadcast. -/
def unban_player (s : ServerState) (args : List String) :
    ServerState × List Event :=
  match args with
  | [identifier] =>
      let uuid_to_unban :=
        match get_player_by_identifier s identifier with
        | some (_, p) => p.uuid
        | none => identifier
      if s.banned_players.contains uuid_to_unban then
        (addDebug { s with banned_players :=
                     s.banned_players.filter (fun x => decide (x ≠ uuid_to_unban)) }
           ("Unbanned player with UUID " ++ uuid_to_unban ++ "."),
         [.acq, .rel, .mut "banned_players"])
      else
        (addDebug s ("No banned player found with identifier " ++ identifier ++ "."),
         [.acq, .rel])
  | _ => (addDebug s "Usage: unban [username/uuid]", [])

/-- Source: `CommandProcessor.broadcast_message` (lines 187–194): append a chat
line (no lock held) and broadcast. -/
def broadcast_message (fails : Nat → Bool) (s : ServerState) (args : List String) :
    ServerState × List Event :=
  if args.isEmpty then (addDebug s "Usage: broadcast [message]", [])
  else
    let message := String.intercalate " " args
    let s₁ := addDebug { s with chat_messages := s.chat_messages ++ [("Server", message)] }
                ("Broadcasted message: " ++ message)
    let b := broadcast_game_state fails s₁ none
    (b.1, [.mut "chat_messages", .bcast b.2.1 b.2.2])

/-- Source: `CommandProcessor.set_speed` (lines 196–212): the speed assignment is
performed with no lock held (only the lookup inside
`get_player_by_identifier` locks). -/
def set_speed (fails : Nat → Bool) (s : ServerState) (args : List String) :
    ServerState × List Event :=
  match args with
  | [identifier, aspeed] =>
      match pyFloat? aspeed with
      | some speed =>
          match get_player_by_identifier s identifier with
          | some (u, p) =>
              let s₁ := addDebug { s with players := dictSet s.players u { p with speed := speed } }
                          ("Set speed of " ++ p.username ++ ".")
              let b := broadcast_game_state fails s₁ none
              (b.1, [.acq, .rel, .mut "speed", .bcast b.2.1 b.2.2])
          | none =>
              (addDebug s ("No player found with identifier " ++ identifier ++ "."),
               [.acq, .rel])
      | none => (addDebug s "Error: speed must be a number.", [])
  | _ => (addDebug s "Usage: set_speed [username/uuid] [speed]", [])

/-- Source: `CommandProcessor.freeze_player` (lines 214–225): assignment outside
the lock. -/
def freeze_player (fails : Nat → Bool) (s : ServerState) (args : List String) :
    ServerState × List Event :=
  match args with
  | [identifier] =>
      match get_player_by_identifier s identifier with
      | some (u, p) =>
          let s₁ := addDebug { s with players := dictSet s.players u { p with frozen := true } }
                      ("Froze player " ++ p.username ++ ".")
          let b := broadcast_game_state fails s₁ none
          (b.1, [.acq, .rel, .mut "frozen", .bcast b.2.1 b.2.2])
      | none =>
          (addDebug s ("No player found with identifier " ++ identifier ++ "."),
           [.acq, .rel])
  | _ => (addDebug s "Usage: freeze [username/uuid]", [])

/-- Source: `CommandProcessor.unfreeze_player` (lines 227–238). -/
def unfreeze_player (fails : Nat → Bool) (s : ServerState) (args : List String) :
    ServerState × List Event :=
  match args with
  | [identifier] =>
      match get_player_by_identifier s identifier with
      | some (u, p) =>
          let s₁ := addDebug { s with players := dictSet s.players u { p with frozen := false } }
                      ("Unfroze player " ++ p.username ++ ".")
          let b := broadcast_game_state fails s₁ none
          (b.1, [.acq, .rel, .mut "frozen", .bcast b.2.1 b.2.2])
      | none =>
          (addDebug s ("No player found with identifier " ++ identifier ++ "."),
           [.acq, .rel])
  | _ => (addDebug s "Usage: unfreeze [username/uuid]", [])

/-- Source: `CommandProcessor.list_players` (lines 240–249): read-only enumeration
under the lock (the per-player text lines are elided). -/
def list_players (s : ServerState) (args : List String) :
    ServerState × List Event :=
  if s.players.isEmpty then
    (addDebug s "No players are currently connected.", [.acq, .rel])
  else
    (addDebug s "Players:", [.acq, .rel])

/-- Source: `CommandProcessor.make_platform` (lines 251–275): parse, append the new
platform under the lock, broadcast. -/
def make_platform_parsed (fails : Nat → Bool) (s : ServerState)
    (ax ay aw ah ptype : String) : ServerState × List Event :=
  match pyFloat? ax, pyFloat? ay, pyIntStr? aw, pyIntStr? ah with
  | some x, some y, some w, some h =>
      let s₁ := { s with platforms := s.platforms ++ [Platform.init x y w h ptype] }
      let s₂ := addDebug s₁ ("Created new platform of type " ++ ptype ++ ".")
      let b := broadcast_game_state fails s₂ none
      (b.1, [.acq, .mut "platforms", .rel, .bcast b.2.1 b.2.2])
  | _, _, _, _ =>
      (addDebug s "Error: x and y must be numbers. width_in_tiles and height_in_tiles must be integers.",
       [])

/-- Arity dispatch of `make_platform`: 4 or 5 arguments, default type
`"normal"`. -/
def make_platform (fails : Nat → Bool) (s : ServerState) (args : List String) :
    ServerState × List Event :=
  match args with
  | [ax, ay, aw, ah] => make_platform_parsed fails s ax ay aw ah "normal"
  | [ax, ay, aw, ah, ptype] => make_platform_parsed fails s ax ay aw ah ptype
  | _ =>
      (addDebug s "Usage: make_platform [x] [y] [width_in_tiles] [height_in_tiles] [platform_type]",
       [])

/-- Source: `CommandProcessor.smite_player` (lines 277–289): velocity injection
outside the lock. -/
def smite_player (fails : Nat → Bool) (s : ServerState) (args : List String) :
    ServerState × List Event :=
  match args with
  | [identifier] =>
      match get_player_by_identifier s identifier with
      | some (u, p) =>
          let s₁ := addDebug { s with players := dictSet s.players u { p with velocity_y := 1000 } }
                      ("Smote player " ++ p.username ++ ".")
          let b := broadcast_game_state fails s₁ none
          (b.1, [.acq, .rel, .mut "velocity_y", .bcast b.2.1 b.2.2])
      | none =>
          (addDebug s ("No player found with identifier " ++ identifier ++ "."),
           [.acq, .rel])
  | _ => (addDebug s "Usage: smite [username/uuid]", [])

/-- Source: `CommandProcessor.launch_player` (lines 291–306): lift by half a tile
and inject upward velocity, outside the lock. -/
def launch_player (fails : Nat → Bool) (s : ServerState) (args : List String) :
    ServerState × List Event :=
  match args with
  | [identifier] =>
      match get_player_by_identifier s identifier with
      | some (u, p) =>
          let p' := { p with grid_y := p.grid_y - 0.5,
                             rect_y := pyInt ((p.grid_y - 0.5) * TILE_SIZE),
                             velocity_y := -1000 }
          let s₁ := addDebug { s with players := dictSet s.players u p' }
                      ("Launched player " ++ p.username ++ " into the air.")
          let b := broadcast_game_state fails s₁ none
          (b.1, [.acq, .rel, .mut "grid_y", .mut "rect_y", .mut "velocity_y",
                 .bcast b.2.1 b.2.2])
      | none =>
          (addDebug s ("No player found with identifier " ++ identifier ++ "."),
           [.acq, .rel])
  | _ => (addDebug s "Usage: launch [username/uuid]", [])

/-- Source: `CommandProcessor.give_hat` (lines 308–321): hat assignment outside
the lock (the image load is rendering-only). -/
def give_hat (fails : Nat → Bool) (s : ServerState) (args : List String) :
    ServerState × List Event :=
  match args with
  | [identifier, hat_name] =>
      match get_player_by_identifier s identifier with
      | some (u, p) =>
          let s₁ := addDebug { s with players := dictSet s.players u { p with hat := some hat_name } }
                      ("Gave hat " ++ hat_name ++ " to player " ++ p.username ++ ".")
          let b := broadcast_game_state fails s₁ none
          (b.1, [.acq, .rel, .mut "hat", .bcast b.2.1 b.2.2])
      | none =>
          (addDebug s ("No player found with identifier " ++ identifier ++ "."),
           [.acq, .rel])
  | _ => (addDebug s "Usage: give_hat [username/uuid] [hat_name]", [])

/-- Source: `CommandProcessor.change_gravity` (lines 323–338): validate the
direction, then assign outside the lock. -/
def change_gravity (fails : Nat → Bool) (s : ServerState) (args : List String) :
    ServerState × List Event :=
  match args with
  | [identifier, adir] =>
      let direction := pyLower adir
      if direction = "up" ∨ direction = "down" ∨ direction = "left" ∨ direction = "right" then
        match get_player_by_identifier s identifier with
        | some (u, p) =>
            let players₁ := dictSet s.players u { p with gravity_direction := direction }
            let s₁ := addDebug { s with players := players₁ }
                        ("Changed gravity for " ++ p.username ++ " to " ++ direction ++ ".")
            let b := broadcast_game_state fails s₁ none
            (b.1, [.acq, .rel, .mut "gravity_direction", .bcast b.2.1 b.2.2])
        | none =>
            (addDebug s ("No player found with identifier " ++ identifier ++ "."),
             [.acq, .rel])
      else
        (addDebug s "Error: direction must be one of up, down, left, right.", [])
  | _ => (addDebug s "Usage: change_gravity [username/uuid] [direction]", [])

/-- Source: `CommandProcessor.show_help` (lines 340–360, static text elided). -/
def show_help (s : ServerState) (args : List String) : ServerState × List Event :=
  (addDebug s "Available commands: (help text)", [])

/-- Source: `CommandProcessor.process_command` (lines 35–52): tokenize, lower-case
the command name, dispatch through the registry, or report an unknown
command.  The modelled handlers never raise, so the `try/except` wrapper
has no modelled effect. -/
def process_command (fails : Nat → Bool) (s : ServerState) (command_string : String) :
    ServerState × List Event :=
  match pySplitWs command_string with
  | [] => (s, [])
  | cmd₀ :: args =>
      let cmd := pyLower cmd₀
      if cmd = "teleport" then teleport_player fails s args
      else if cmd = "setpos" then teleport_player fails s args
      else if cmd = "add" then add_position fails s args
      else if cmd = "kick" then kick_player fails s args
      else if cmd = "ban" then ban_player fails s args
      else if cmd = "unban" then unban_player s args
      else if cmd = "broadcast" then broadcast_message fails s args
      else if cmd = "set_speed" then set_speed fails s args
      else if cmd = "freeze" then freeze_player fails s args
      else if cmd = "unfreeze" then unfreeze_player fails s args
      else if cmd = "list" then list_players s args
      else if cmd = "make_platform" then make_platform fails s args
      else if cmd = "smite" then smite_player fails s args
      else if cmd = "launch" then launch_player fails s args
      else if cmd = "give_hat" then give_hat fails s args
      else if cmd = "change_gravity" then change_gravity fails s args
      else if cmd = "help" then show_help s args
      else (addDebug s ("Unknown command: " ++ cmd ++ ". Type help for a list of commands."), [])

/-! ## Trace predicates for the locking discipline -/

/-- Helper for `mutsLocked`: depth-counting scan. -/
def mutsLockedAux : Nat → List Event → Bool
  | _, [] => true
  | d, Event.acq :: r => mutsLockedAux (d + 1) r
  | d, Event.rel :: r => mutsLockedAux (d - 1) r
  | d, Event.mut _ :: r => decide (0 < d) && mutsLockedAux d r
  | d, Event.notice _ _ :: r => mutsLockedAux d r
  | d, Event.bcast _ _ :: r => mutsLockedAux d r

/-- Every store mutation in the trace happens while the store lock is
held. -/
def mutsLocked (t : List Event) : Bool :=
  mutsLockedAux 0 t

/-- Some broadcast-engine cycle occurs after every store mutation of the
trace (scanning from the end: a `bcast` is seen before any `mut`). -/
def bcastAfterMuts (t : List Event) : Bool :=
  (t.reverse.takeWhile (fun e => match e with | Event.mut _ => false | _ => true)).any
    (fun e => match e with | Event.bcast _ _ => true | _ => false)

/-- The trace contains at least one store mutation. -/
def hasMut (t : List Event) : Bool :=
  t.any (fun e => match e with | Event.mut _ => true | _ => false)

/-! ## Handshake sequences and the binding invariant -/

/-- The connection-table entries referencing identity `u`. -/
def entriesFor (s : ServerState) (u : String) : List (Nat × String) :=
  s.clients.filter (fun q => decide (q.2 = u))

/-- The socket handles currently in the connection table. -/
def clientConns (s : ServerState) : List Nat :=
  s.clients.map (fun q => q.1)

/-- The binding invariant for one identity `u`: at most one
connection-table entry references `u`, and when `u`'s player is absent or
marked disconnected there is none. -/
def BindInv (s : ServerState) (u : String) : Prop :=
  (entriesFor s u).length ≤ 1 ∧
  (∀ p, dictGet? s.players u = some p → p.connected = false → entriesFor s u = []) ∧
  (dictGet? s.players u = none → entriesFor s u = [])

/-- Run a sequence of completed handshakes all presenting identity `u`;
each list element carries the fresh connection handle and the announced
username and hat. -/
def runHandshakes (u : String) (s : ServerState) :
    List (Nat × String × Option String) → ServerState
  | [] => s
  | (c, un, h) :: rest => runHandshakes u (bindClient s c u un h).1 rest

/-! ## Concrete sample states (used by the witness theorems) -/

/-- The freshly started server: no players, no connections, no bans. -/
def wEmpty : ServerState :=
  { players := []
    clients := []
    platforms := []
    chat_messages := []
    banned_players := []
    debug_messages := [] }

/-- A stored player for identity `"u1"` at position `(5, 3)` with speed
400 (the reconnect scenario of the spec). -/
def wPlayer : Player :=
  { Player.init 5 3 20 20 "Alice" none "u1" with speed := 400 }

/-- The same player, frozen. -/
def wPlayerFrozen : Player :=
  { wPlayer with frozen := true }

/-- A second player, `"u2"`, at spawn. -/
def wPlayer2 : Player :=
  Player.init 2 10 20 20 "Bob" none "u2"

/-- A third player, `"u3"`. -/
def wPlayer3 : Player :=
  Player.init 4 6 20 20 "Cara" none "u3"

/-- A one-player world with connection 1 bound to `"u1"`. -/
def wState : ServerState :=
  { players := [("u1", wPlayer)]
    clients := [(1, "u1")]
    platforms := []
    chat_messages := []
    banned_players := []
    debug_messages := [] }

/-- The one-player world with the player frozen. -/
def wStateFrozen : ServerState :=
  { wState with players := [("u1", wPlayerFrozen)] }

/-- A three-player world with connections 1, 2, 3 bound to
`"u1"`, `"u2"`, `"u3"` (the broadcast-isolation scenario). -/
def wState3 : ServerState :=
  { players := [("u1", wPlayer), ("u2", wPlayer2), ("u3", wPlayer3)]
    clients := [(1, "u1"), (2, "u2"), (3, "u3")]
    platforms := []
    chat_messages := []
    banned_players := []
    debug_messages := [] }

/-- A world whose ban set contains `"u9"`. -/
def wStateBanned : ServerState :=
  { wState with banned_players := ["u9"] }

/-- A streaming frame carrying a position and velocities. -/
def wUpdate : ClientUpdate :=
  { position := some (8, 9)
    velocity_x := some 1
    velocity_y := some 2
    gravity_direction := some "up" }

/-- The always-successful send oracle. -/
def noFail : Nat → Bool := fun _ => false

/-- The send oracle under which only connection 2 fails. -/
def failOnly2 : Nat → Bool := fun c => decide (c = 2)

/-! ## Lemma library: association lists and byte framing -/

theorem dictGet?_nil {K V : Type} [DecidableEq K] (k : K) :
    dictGet? ([] : List (K × V)) k = none := rfl

theorem dictGet?_cons {K V : Type} [DecidableEq K] (p : K × V) (d : List (K × V)) (k : K) :
    dictGet? (p :: d) k = if p.1 = k then some p.2 else dictGet? d k := by
  by_cases h : p.1 = k <;> simp [dictGet?, List.find?_cons, h]

theorem dictGet?_eq_none_iff {K V : Type} [DecidableEq K] (d : List (K × V)) (k : K) :
    dictGet? d k = none ↔ ∀ p ∈ d, p.1 ≠ k := by
  induction d with
  | nil => simp [dictGet?]
  | cons p d ih =>
      rw [dictGet?_cons]
      by_cases h : p.1 = k <;> simp [h, ih]

theorem dictGet?_append_right {K V : Type} [DecidableEq K] (d e : List (K × V)) (k : K)
    (h : dictGet? d k = none) : dictGet? (d ++ e) k = dictGet? e k := by
  induction d with
  | nil => simp
  | cons p d ih =>
      rw [dictGet?_cons] at h
      rw [List.cons_append, dictGet?_cons]
      by_cases hp : p.1 = k
      · simp [hp] at h
      · simpa [hp] using ih (by simpa [hp] using h)

theorem dictSet_of_not_mem {K V : Type} [DecidableEq K] (d : List (K × V)) (k : K) (v : V)
    (h : ∀ p ∈ d, p.1 ≠ k) : dictSet d k v = d ++ [(k, v)] := by
  unfold dictSet
  rw [if_neg]
  simp only [List.any_eq_true, decide_eq_true_eq, not_exists, not_and]
  intro p hp
  exact fun he => h p hp he

theorem dictGet?_dictSet_self {K V : Type} [DecidableEq K] (d : List (K × V)) (k : K) (v : V) :
    dictGet? (dictSet d k v) k = some v := by
  unfold dictSet
  by_cases h : d.any (fun p => decide (p.1 = k))
  · rw [if_pos h]
    induction d with
    | nil => simp at h
    | cons p d ih =>
        by_cases hp : p.1 = k
        · simp [dictGet?_cons, hp]
        · simp only [List.any_cons, Bool.or_eq_true, decide_eq_true_eq] at h
          rcases h with h | h
          · exact absurd h hp
          · simp only [List.map_cons, if_neg hp]
            rw [dictGet?_cons, if_neg hp]
            exact ih h
  · rw [if_neg h]
    simp only [List.any_eq_true, decide_eq_true_eq, not_exists, not_and] at h
    rw [dictGet?_append_right _ _ _ ((dictGet?_eq_none_iff d k).mpr h)]
    simp [dictGet?_cons]

theorem dictGet?_append_singleton_ne {K V : Type} [DecidableEq K] (d : List (K × V))
    (k k' : K) (v : V) (h : k' ≠ k) :
    dictGet? (d ++ [(k, v)]) k' = dictGet? d k' := by
  induction d with
  | nil =>
      rw [List.nil_append, dictGet?_cons, if_neg (fun he => h he.symm)]
  | cons p d ih =>
      rw [List.cons_append, dictGet?_cons, dictGet?_cons]
      by_cases hq : p.1 = k'
      · simp [hq]
      · rw [if_neg hq, if_neg hq]
        exact ih

theorem dictGet?_dictSet_ne {K V : Type} [DecidableEq K] (d : List (K × V)) (k k' : K) (v : V)
    (h : k' ≠ k) : dictGet? (dictSet d k v) k' = dictGet? d k' := by
  unfold dictSet
  by_cases hmem : d.any (fun p => decide (p.1 = k))
  · rw [if_pos hmem]
    clear hmem
    induction d with
    | nil => rfl
    | cons p d ih =>
        simp only [List.map_cons]
        by_cases hp : p.1 = k
        · rw [if_pos hp, dictGet?_cons, dictGet?_cons]
          have hk : ¬ (k = k') := fun he => h he.symm
          rw [if_neg hk, if_neg (by rw [hp]; exact hk)]
          exact ih
        · rw [if_neg hp, dictGet?_cons, dictGet?_cons]
          by_cases hq : p.1 = k'
          · simp [hq]
          · rw [if_neg hq, if_neg hq]
            exact ih
  · rw [if_neg hmem]
    exact dictGet?_append_singleton_ne d k k' v h

theorem dictGet?_dictDel_self {K V : Type} [DecidableEq K] (d : List (K × V)) (k : K) :
    dictGet? (dictDel d k) k = none := by
  rw [dictGet?_eq_none_iff]
  intro p hp
  have := List.of_mem_filter hp
  simpa using this

theorem dictGet?_dictDel_ne {K V : Type} [DecidableEq K] (d : List (K × V)) (k k' : K)
    (h : k' ≠ k) : dictGet? (dictDel d k) k' = dictGet? d k' := by
  induction d with
  | nil => rfl
  | cons p d ih =>
      unfold dictDel
      by_cases hp : p.1 = k
      · rw [List.filter_cons_of_neg (by simp [hp])]
        rw [dictGet?_cons, if_neg (by rw [hp]; exact fun he => h he.symm)]
        exact ih
      · rw [List.filter_cons_of_pos (by simp [hp])]
        rw [dictGet?_cons, dictGet?_cons]
        by_cases hq : p.1 = k'
        · simp [hq]
        · rw [if_neg hq, if_neg hq]
          exact ih

theorem dictDel_of_not_mem {K V : Type} [DecidableEq K] (d : List (K × V)) (k : K)
    (h : dictGet? d k = none) : dictDel d k = d := by
  rw [dictGet?_eq_none_iff] at h
  unfold dictDel
  rw [List.filter_eq_self]
  intro p hp
  simpa using h p hp

theorem toBytesBE_length (k n : Nat) : (toBytesBE k n).length = k := by
  induction k generalizing n with
  | zero => rfl
  | succ k ih => simp [toBytesBE, ih]

theorem fromBytesBE_append_singleton (bs : List Nat) (b : Nat) :
    fromBytesBE (bs ++ [b]) = fromBytesBE bs * 256 + b := by
  unfold fromBytesBE
  rw [List.foldl_append]
  rfl

theorem fromBytesBE_toBytesBE (k n : Nat) (h : n < 256 ^ k) :
    fromBytesBE (toBytesBE k n) = n := by
  induction k generalizing n with
  | zero =>
      interval_cases n
      rfl
  | succ k ih =>
      have hdiv : n / 256 < 256 ^ k := by
        rw [Nat.div_lt_iff_lt_mul (by norm_num : 0 < 256)]
        calc n < 256 ^ (k + 1) := h
        _ = 256 ^ k * 256 := by ring
      rw [toBytesBE, fromBytesBE_append_singleton, ih _ hdiv]
      have := Nat.div_add_mod n 256
      omega


theorem take_append_of_length_eq {α : Type} (l₁ l₂ : List α) (n : Nat) (h : l₁.length = n) :
    (l₁ ++ l₂).take n = l₁ := by
  subst h
  induction l₁ with
  | nil => rfl
  | cons a l ih => rw [List.length_cons, List.cons_append, List.take_succ_cons, ih]

theorem drop_append_of_length_eq {α : Type} (l₁ l₂ : List α) (n : Nat) (h : l₁.length = n) :
    (l₁ ++ l₂).drop n = l₂ := by
  subst h
  induction l₁ with
  | nil => rfl
  | cons a l ih => rw [List.length_cons, List.cons_append, List.drop_succ_cons, ih]

theorem find?_eq_some_of_filter_eq_singleton {α : Type} (p : α → Bool) (l : List α) (a : α)
    (h : l.filter p = [a]) : l.find? p = some a := by
  induction l with
  | nil => simp at h
  | cons x l ih =>
      by_cases hx : p x
      · rw [List.filter_cons_of_pos hx] at h
        injection h with h1 h2
        subst h1
        simp [List.find?_cons, hx]
      · rw [List.filter_cons_of_neg hx] at h
        simp only [List.find?_cons, hx]
        exact ih h

theorem find?_eq_none_of_filter_eq_nil {α : Type} (p : α → Bool) (l : List α)
    (h : l.filter p = []) : l.find? p = none := by
  induction l with
  | nil => rfl
  | cons x l ih =>
      by_cases hx : p x
      · rw [List.filter_cons_of_pos hx] at h
        simp at h
      · rw [List.filter_cons_of_neg hx] at h
        simp only [List.find?_cons]
        simp only [Bool.not_eq_true] at hx
        rw [hx]
        exact ih h

/-! ## Claim C6: framing round trip -/

/-- C6: for every byte payload `P` (the 4-byte big-endian length prefix
bounds payloads below `256^4`), including the empty payload, reading a
frame from a stream holding exactly `sendFrame(P)` — 4 length bytes via
`recvall`, then exactly that many payload bytes via `recvall` — yields
exactly `P` (and consumes the whole stream). -/
theorem framing_roundtrip (P : List Nat) (h : P.length < 256 ^ 4) :
    recvFrame (sendFrame P) = some (P, []) := by
  have hlen : (toBytesBE 4 P.length).length = 4 := toBytesBE_length 4 P.length
  have h₁ : recvall (sendFrame P) 4 = some (toBytesBE 4 P.length, P) := by
    unfold recvall sendFrame
    rw [if_pos (by rw [List.length_append, hlen]; omega)]
    rw [take_append_of_length_eq _ _ _ hlen, drop_append_of_length_eq _ _ _ hlen]
  have h₂ : recvall P P.length = some (P, []) := by
    unfold recvall
    rw [if_pos (le_refl _), List.take_length, List.drop_length]
  unfold recvFrame
  rw [h₁]
  simp only [fromBytesBE_toBytesBE 4 P.length h]
  rw [h₂]

/-- Witness for C6 at the empty payload. -/
theorem framing_roundtrip_witness :
    ([] : List Nat).length < 256 ^ 4 ∧ recvFrame (sendFrame []) = some ([], []) :=
  ⟨by norm_num, framing_roundtrip [] (by norm_num)⟩

/-! ## Claim C10: zero-length frames act as disconnects -/

/-- C10: in the streaming loop, a well-formed frame with declared payload
length zero is indistinguishable from EOF: `recvall(conn, 0)` returns the
empty byte string, the `if not data:` check takes it for a disconnect,
and the loop breaks without processing the frame (for every state, parse
function, send oracle and remaining stream). -/
theorem zero_length_frame_disconnects (fails : Nat → Bool)
    (parse : List Nat → Option ClientUpdate) (s : ServerState) (conn : Nat)
    (rest : List Nat) :
    recvall rest 0 = some ([], rest) ∧
    clientLoopStep fails parse s conn (sendFrame [] ++ rest) = LoopStep.disconnect := by
  have h₀ : recvall rest 0 = some ([], rest) := by
    unfold recvall
    rw [if_pos (Nat.zero_le _)]
    rfl
  refine ⟨h₀, ?_⟩
  have hstream : sendFrame [] ++ rest = 0 :: 0 :: 0 :: 0 :: rest := rfl
  rw [hstream]
  simp only [clientLoopStep, recvUpTo]
  simp [h₀, fromBytesBE]

/-! ## Claim C5: banned identities are rejected before any binding -/

/-- C5: a handshake announcing a banned identity gets the rejection frame
and no mutation of the players map or the connection table — the ban
check precedes the bind step, which is never reached. -/
theorem ban_blocks_handshake (s : ServerState) (conn : Nat) (d : InitData)
    (h : s.banned_players.contains d.uuid = true) :
    (handleHandshake s conn d).1.players = s.players ∧
    (handleHandshake s conn d).1.clients = s.clients ∧
    (handleHandshake s conn d).2 =
      HandshakeOutcome.rejected "You are banned from this server." := by
  unfold handleHandshake
  rw [if_pos h]
  exact ⟨rfl, rfl, rfl⟩

/-- Witness for C5: identity `"u9"` is banned in `wStateBanned`. -/
theorem ban_blocks_handshake_witness :
    wStateBanned.banned_players.contains "u9" = true ∧
    ((handleHandshake wStateBanned 7 ⟨"u9", "Eve", none⟩).1.players =
       wStateBanned.players ∧
     (handleHandshake wStateBanned 7 ⟨"u9", "Eve", none⟩).1.clients =
       wStateBanned.clients ∧
     (handleHandshake wStateBanned 7 ⟨"u9", "Eve", none⟩).2 =
       HandshakeOutcome.rejected "You are banned from this server.") :=
  ⟨by decide, ban_blocks_handshake wStateBanned 7 ⟨"u9", "Eve", none⟩ (by decide)⟩

/-! ## Claim C3: frozen immunity -/

/-- C3: for a player bound to a connection, a streaming frame leaves the
stored position, velocity and gravity direction untouched when the player
is frozen (the state is returned unchanged), while for an unfrozen player
a frame carrying a position overwrites position (and the velocity and
gravity-direction fields exactly when present in the frame). -/
theorem frozen_immunity (s : ServerState) (conn : Nat) (u : String) (p : Player)
    (upd : ClientUpdate)
    (hc : dictGet? s.clients conn = some u)
    (hp : dictGet? s.players u = some p) :
    (p.frozen = true → applyClientUpdate s conn upd = some s) ∧
    (p.frozen = false → ∀ pos, upd.position = some pos →
      applyClientUpdate s conn upd =
        some { s with players := dictSet s.players u (applyFrameToPlayer p upd pos) }) := by
  constructor
  · intro hf
    cases hpos : upd.position with
    | none => simp [applyClientUpdate, hpos]
    | some pos => simp [applyClientUpdate, hpos, hc, hp, hf]
  · intro hf pos hpos
    simp [applyClientUpdate, hpos, hc, hp, hf]

/-- Witness for C3: the frozen player of `wStateFrozen` ignores
`wUpdate`. -/
theorem frozen_immunity_witness :
    dictGet? wStateFrozen.clients 1 = some "u1" ∧
    dictGet? wStateFrozen.players "u1" = some wPlayerFrozen ∧
    wPlayerFrozen.frozen = true ∧
    applyClientUpdate wStateFrozen 1 wUpdate = some wStateFrozen :=
  ⟨rfl, rfl, rfl,
   (frozen_immunity wStateFrozen 1 "u1" wPlayerFrozen wUpdate rfl rfl).1 rfl⟩

/-! ## Claim C2: the bind step preserves stored state on reconnect -/

/-- The bind step's player upsert for a pre-existing identity overwrites
exactly username, hat and connected. -/
theorem bindClient_players_upsert (s : ServerState) (conn : Nat) (u un : String)
    (h : Option String) (p : Player) (hp : dictGet? s.players u = some p) :
    dictGet? (bindClient s conn u un h).1.players u =
      some { p with username := un, hat := h, connected := true } := by
  by_cases hcon : p.connected = true
  · simp only [bindClient, hp, hcon, if_true]
    exact dictGet?_dictSet_self _ _ _
  · simp only [bindClient, hp, hcon, if_false, Bool.false_eq_true]
    exact dictGet?_dictSet_self _ _ _

/-- C2: for a pre-existing identity the bind step overwrites only
username, hat and connected (first conjunct); in particular a teardown
(disconnect) followed by a reconnect handshake for an identity with
stored position `(5, 3)` and speed 400 yields a player with that same
position and speed and `connected = true` (second conjunct). -/
theorem reconnect_preserves_state :
    (∀ (s : ServerState) (conn : Nat) (u un : String) (h : Option String) (p : Player),
       dictGet? s.players u = some p →
       dictGet? (bindClient s conn u un h).1.players u =
         some { p with username := un, hat := h, connected := true }) ∧
    (∀ (s : ServerState) (c c' : Nat) (u un : String) (h : Option String) (p : Player),
       dictGet? s.clients c = some u →
       dictGet? s.players u = some p →
       p.grid_x = 5 → p.grid_y = 3 → p.speed = 400 →
       s.banned_players.contains u = false →
       ∃ q, dictGet? (handleHandshake (teardown s c) c' ⟨u, un, h⟩).1.players u = some q ∧
         q.grid_x = 5 ∧ q.grid_y = 3 ∧ q.speed = 400 ∧ q.connected = true) := by
  constructor
  · intro s conn u un h p hp
    exact bindClient_players_upsert s conn u un h p hp
  · intro s c c' u un h p hc hp h5 h3 h400 hban
    have ht : dictGet? (teardown s c).players u = some { p with connected := false } := by
      simp only [teardown, hc, hp]
      exact dictGet?_dictSet_self _ _ _
    have htban : (teardown s c).banned_players = s.banned_players := by
      simp only [teardown, hc, hp]
    have hh : (handleHandshake (teardown s c) c' ⟨u, un, h⟩).1 =
        (bindClient (teardown s c) c' u un h).1 := by
      unfold handleHandshake
      rw [if_neg (by rw [htban, hban]; exact Bool.false_ne_true)]
    rw [hh]
    refine ⟨_, bindClient_players_upsert _ c' u un h _ ht, ?_, ?_, ?_, rfl⟩
    · exact h5
    · exact h3
    · exact h400

/-- Witness for C2 on `wState` (identity `"u1"`, stored position `(5, 3)`,
speed 400, bound connection 1, reconnect handshake on connection 2). -/
theorem reconnect_preserves_state_witness :
    ∃ q, dictGet? (handleHandshake (teardown wState 1) 2 ⟨"u1", "Alice", none⟩).1.players
        "u1" = some q ∧
      q.grid_x = 5 ∧ q.grid_y = 3 ∧ q.speed = 400 ∧ q.connected = true :=
  reconnect_preserves_state.2 wState 1 2 "u1" "Alice" none wPlayer
    rfl rfl rfl rfl rfl rfl

/-! ## Claim C7: the teleport command -/

theorem broadcastSendLoop_noFail (frame : Snapshot) (ts : List Nat) (s : ServerState) :
    broadcastSendLoop noFail frame ts s = (s, ts.map (fun c => (c, frame))) := by
  induction ts with
  | nil => rfl
  | cons c rest ih => simp [broadcastSendLoop, noFail, ih]

theorem broadcast_game_state_noFail (s : ServerState) :
    (broadcast_game_state noFail s none).1 = { s with chat_messages := [] } := by
  simp [broadcast_game_state, broadcastSendLoop_noFail]

theorem dictGet?_serialize_map (d : List (String × Player)) (u : String) :
    dictGet? (d.map (fun q => (q.1, q.2.serialize))) u =
      (dictGet? d u).map Player.serialize := by
  induction d with
  | nil => rfl
  | cons p d ih =>
      by_cases hp : p.1 = u
      · simp [dictGet?_cons, hp]
      · simp [dictGet?_cons, hp, ih]

/-- C7: on a world where `"u1"` resolves to a player, processing
`teleport u1 7 2` stores position `(7, 2)` for that player and the
broadcast serialization of the resulting state shows that position,
while `teleport u1 abc 2` appends only the numeric-parse error message
and leaves the whole state otherwise unchanged (under any send
oracle). -/
theorem teleport_command (s : ServerState) (u : String) (p : Player)
    (hfind : get_player_by_identifier s "u1" = some (u, p)) :
    (∃ q, dictGet? (process_command noFail s "teleport u1 7 2").1.players u = some q ∧
       q.grid_x = 7 ∧ q.grid_y = 2) ∧
    (∃ ser, dictGet? (serializeSnapshot
         (process_command noFail s "teleport u1 7 2").1).players u = some ser ∧
       ser.position = (7, 2)) ∧
    (∀ fails : Nat → Bool, process_command fails s "teleport u1 abc 2" =
       (addDebug s "Error: x and y must be numbers.", [])) := by
  have htok : pySplitWs "teleport u1 7 2" = ["teleport", "u1", "7", "2"] := by decide
  have htok2 : pySplitWs "teleport u1 abc 2" = ["teleport", "u1", "abc", "2"] := by decide
  have hlow : pyLower "teleport" = "teleport" := by decide
  have h7 : pyFloat? "7" = some 7 := by decide
  have h2 : pyFloat? "2" = some 2 := by decide
  have habc : pyFloat? "abc" = none := by decide
  have hdisp : ∀ fails : Nat → Bool, process_command fails s "teleport u1 7 2" =
      teleport_player fails s ["u1", "7", "2"] := by
    intro fails
    simp [process_command, htok, hlow]
  have hdisp2 : ∀ fails : Nat → Bool, process_command fails s "teleport u1 abc 2" =
      teleport_player fails s ["u1", "abc", "2"] := by
    intro fails
    simp [process_command, htok2, hlow]
  have hlook : dictGet? (teleport_player noFail s ["u1", "7", "2"]).1.players u =
      some { p with grid_x := 7, grid_y := 2,
                    rect_x := pyInt (7 * TILE_SIZE), rect_y := pyInt (2 * TILE_SIZE) } := by
    simp only [teleport_player, h7, h2, hfind]
    rw [broadcast_game_state_noFail]
    exact dictGet?_dictSet_self _ _ _
  constructor
  · rw [hdisp noFail]
    exact ⟨_, hlook, rfl, rfl⟩
  constructor
  · rw [hdisp noFail]
    refine ⟨Player.serialize { p with grid_x := 7, grid_y := 2,
                                      rect_x := pyInt (7 * TILE_SIZE),
                                      rect_y := pyInt (2 * TILE_SIZE) }, ?_, rfl⟩
    show dictGet? ((teleport_player noFail s ["u1", "7", "2"]).1.players.map
        (fun q => (q.1, q.2.serialize))) u = _
    rw [dictGet?_serialize_map, hlook]
    rfl
  · intro fails
    rw [hdisp2 fails]
    simp [teleport_player, habc]

/-- Witness for C7 on `wState`. -/
theorem teleport_command_witness :
    get_player_by_identifier wState "u1" = some ("u1", wPlayer) ∧
    (∃ q, dictGet? (process_command noFail wState "teleport u1 7 2").1.players "u1" =
        some q ∧ q.grid_x = 7 ∧ q.grid_y = 2) ∧
    (∀ fails : Nat → Bool, process_command fails wState "teleport u1 abc 2" =
       (addDebug wState "Error: x and y must be numbers.", [])) :=
  ⟨rfl, (teleport_command wState "u1" wPlayer rfl).1,
   (teleport_command wState "u1" wPlayer rfl).2.2⟩

/-! ## Claim C1: at most one active binding per identity -/

theorem entriesFor_append_self (l : List (Nat × String)) (c : Nat) (u : String) :
    (l ++ [(c, u)]).filter (fun q => decide (q.2 = u)) =
      l.filter (fun q => decide (q.2 = u)) ++ [(c, u)] := by
  rw [List.filter_append]
  simp

theorem entriesFor_dictDel_head (l : List (Nat × String)) (e : Nat × String) (u : String)
    (h : l.filter (fun q => decide (q.2 = u)) = [e]) :
    (dictDel l e.1).filter (fun q => decide (q.2 = u)) = [] := by
  rw [List.filter_eq_nil_iff]
  intro x hx
  simp only [decide_eq_true_eq]
  intro hxu
  have hxl : x ∈ l := List.mem_of_mem_filter hx
  have hxne : x.1 ≠ e.1 := by
    have := List.of_mem_filter hx
    simpa using this
  have hxe : x ∈ l.filter (fun q => decide (q.2 = u)) :=
    List.mem_filter.mpr ⟨hxl, by simpa using hxu⟩
  rw [h] at hxe
  exact hxne (by rw [List.mem_singleton.mp hxe])

theorem mem_dictKeys_dictSet {K V : Type} [DecidableEq K] (d : List (K × V)) (k k' : K)
    (v : V) (h : k' ∈ dictKeys (dictSet d k v)) : k' = k ∨ k' ∈ dictKeys d := by
  unfold dictSet at h
  by_cases hmem : d.any (fun p => decide (p.1 = k))
  · rw [if_pos hmem] at h
    rcases List.mem_map.mp h with ⟨q, hq, rfl⟩
    rcases List.mem_map.mp hq with ⟨p, hp, rfl⟩
    by_cases hpk : p.1 = k
    · left; simp [hpk]
    · right
      exact List.mem_map.mpr ⟨p, hp, by simp [hpk]⟩
  · rw [if_neg hmem] at h
    unfold dictKeys at h
    rw [List.map_append] at h
    rcases List.mem_append.mp h with h | h
    · right; exact h
    · left; simpa using h

theorem mem_dictKeys_dictDel {K V : Type} [DecidableEq K] (d : List (K × V)) (k k' : K)
    (h : k' ∈ dictKeys (dictDel d k)) : k' ∈ dictKeys d := by
  rcases List.mem_map.mp h with ⟨p, hp, rfl⟩
  exact List.mem_map.mpr ⟨p, List.mem_of_mem_filter hp, rfl⟩

/-- One completed handshake for identity `u` on a fresh connection, on a
state satisfying the binding invariant: afterwards the identity's sole
connection-table entry is the new connection, its player exists and is
connected, and the connection table gained no handle other than the new
one. -/
theorem bindClient_step (s : ServerState) (u : String) (conn : Nat) (un : String)
    (h : Option String) (hinv : BindInv s u) (hfresh : conn ∉ clientConns s) :
    entriesFor (bindClient s conn u un h).1 u = [(conn, u)] ∧
    (∃ q, dictGet? (bindClient s conn u un h).1.players u = some q ∧ q.connected = true) ∧
    (∀ c, c ∈ clientConns (bindClient s conn u un h).1 → c = conn ∨ c ∈ clientConns s) := by
  have hfresh' : ∀ q ∈ s.clients, q.1 ≠ conn := by
    intro q hq he
    exact hfresh (List.mem_map.mpr ⟨q, hq, he⟩)
  have happend : dictSet s.clients conn u = s.clients ++ [(conn, u)] :=
    dictSet_of_not_mem _ _ _ hfresh'
  cases hp : dictGet? s.players u with
  | none =>
      have hent : entriesFor s u = [] := hinv.2.2 hp
      have hone : bindClient s conn u un h =
          ({ s with players := dictSet s.players u
                      { Player.init 2 10 20 20 un h u with
                          speed := 300, is_local_player := false }
                    clients := dictSet s.clients conn u
                    debug_messages := s.debug_messages ++
                      ["Player " ++ un ++ " connected with UUID " ++ u ++ "."] },
           []) := by
        simp [bindClient, hp]
      refine ⟨?_, ⟨{ Player.init 2 10 20 20 un h u with
                       speed := 300, is_local_player := false }, ?_, rfl⟩, ?_⟩
      · rw [hone]
        show (dictSet s.clients conn u).filter (fun q => decide (q.2 = u)) = _
        rw [happend, entriesFor_append_self]
        unfold entriesFor at hent
        rw [hent]
        rfl
      · rw [hone]
        exact dictGet?_dictSet_self _ _ _
      · intro c hc
        rw [hone] at hc
        rcases mem_dictKeys_dictSet _ _ _ _ hc with he | hin
        · exact Or.inl he
        · exact Or.inr hin
  | some p =>
      by_cases hcon : p.connected = true
      · -- find the (at most one) existing entry for u
        cases hE : entriesFor s u with
        | nil =>
            have hfind : s.clients.find? (fun q => decide (q.2 = u)) = none :=
              find?_eq_none_of_filter_eq_nil _ _ hE
            have hone : bindClient s conn u un h =
                ({ s with players := dictSet s.players u
                            { p with connected := true, username := un, hat := h }
                          clients := dictSet s.clients conn u
                          debug_messages := s.debug_messages ++
                            ["Player " ++ un ++ " reconnected with UUID " ++ u ++ "."] },
                 []) := by
              simp [bindClient, hp, hcon, hfind]
            refine ⟨?_, ⟨{ p with connected := true, username := un, hat := h }, ?_, rfl⟩, ?_⟩
            · rw [hone]
              show (dictSet s.clients conn u).filter (fun q => decide (q.2 = u)) = _
              rw [happend, entriesFor_append_self]
              unfold entriesFor at hE
              rw [hE]
              rfl
            · rw [hone]
              exact dictGet?_dictSet_self _ _ _
            · intro c hc
              rw [hone] at hc
              rcases mem_dictKeys_dictSet _ _ _ _ hc with he | hin
              · exact Or.inl he
              · exact Or.inr hin
        | cons e tail =>
            have htail : tail = [] := by
              have := hinv.1
              rw [hE] at this
              simpa using this
            subst htail
            have heu : e.2 = u := by
              have he : e ∈ entriesFor s u := by rw [hE]; exact List.mem_singleton.mpr rfl
              have := List.of_mem_filter he
              simpa using this
            have hfind : s.clients.find? (fun q => decide (q.2 = u)) = some e :=
              find?_eq_some_of_filter_eq_singleton _ _ _ hE
            have hone : bindClient s conn u un h =
                ({ s with players := dictSet s.players u
                            { p with connected := true, username := un, hat := h }
                          clients := dictSet (dictDel s.clients e.1) conn u
                          debug_messages := s.debug_messages ++
                            ["Client with UUID " ++ u ++
                             " is already connected. Disconnecting the existing connection."] ++
                            ["Player " ++ un ++ " reconnected with UUID " ++ u ++ "."] },
                 [e.1]) := by
              simp [bindClient, hp, hcon, hfind]
            have hdelfresh : ∀ q ∈ dictDel s.clients e.1, q.1 ≠ conn := by
              intro q hq
              exact hfresh' q (List.mem_of_mem_filter hq)
            have happend₂ : dictSet (dictDel s.clients e.1) conn u =
                dictDel s.clients e.1 ++ [(conn, u)] :=
              dictSet_of_not_mem _ _ _ hdelfresh
            refine ⟨?_, ⟨{ p with connected := true, username := un, hat := h }, ?_, rfl⟩, ?_⟩
            · rw [hone]
              show (dictSet (dictDel s.clients e.1) conn u).filter
                  (fun q => decide (q.2 = u)) = _
              rw [happend₂, entriesFor_append_self, entriesFor_dictDel_head _ _ _ hE]
              rfl
            · rw [hone]
              exact dictGet?_dictSet_self _ _ _
            · intro c hc
              rw [hone] at hc
              rcases mem_dictKeys_dictSet _ _ _ _ hc with he | hin
              · exact Or.inl he
              · exact Or.inr (mem_dictKeys_dictDel _ _ _ hin)
      · have hent : entriesFor s u = [] := by
          apply hinv.2.1 p hp
          cases hb : p.connected
          · rfl
          · exact absurd hb hcon
        have hone : bindClient s conn u un h =
            ({ s with players := dictSet s.players u
                        { p with connected := true, username := un, hat := h }
                      clients := dictSet s.clients conn u
                      debug_messages := s.debug_messages ++
                        ["Player " ++ un ++ " reconnected with UUID " ++ u ++ "."] },
             []) := by
          simp [bindClient, hp, hcon]
        refine ⟨?_, ⟨{ p with connected := true, username := un, hat := h }, ?_, rfl⟩, ?_⟩
        · rw [hone]
          show (dictSet s.clients conn u).filter (fun q => decide (q.2 = u)) = _
          rw [happend, entriesFor_append_self]
          unfold entriesFor at hent
          rw [hent]
          rfl
        · rw [hone]
          exact dictGet?_dictSet_self _ _ _
        · intro c hc
          rw [hone] at hc
          rcases mem_dictKeys_dictSet _ _ _ _ hc with he | hin
          · exact Or.inl he
          · exact Or.inr hin

theorem BindInv_of_bound (s : ServerState) (u : String) (conn : Nat)
    (hent : entriesFor s u = [(conn, u)])
    (hq : ∃ q, dictGet? s.players u = some q ∧ q.connected = true) : BindInv s u := by
  refine ⟨by rw [hent]; exact le_refl 1, ?_, ?_⟩
  · intro p hp hpc
    rcases hq with ⟨q, hq1, hq2⟩
    rw [hp] at hq1
    injection hq1 with he
    rw [← he, hpc] at hq2
    cases hq2
  · intro h0
    rcases hq with ⟨q, hq1, _⟩
    rw [h0] at hq1
    cases hq1

/-- Folding a sequence of handshakes for identity `u` over a state
satisfying the binding invariant, with pairwise-distinct fresh
connections: the invariant is maintained, no foreign handle enters the
table, and a nonempty sequence leaves exactly the last handshake's
connection bound. -/
theorem runHandshakes_props (u : String) (hs : List (Nat × String × Option String)) :
    ∀ s : ServerState, BindInv s u →
      (∀ x ∈ hs, x.1 ∉ clientConns s) →
      (hs.map (fun x => x.1)).Nodup →
      BindInv (runHandshakes u s hs) u ∧
      (∀ c, c ∈ clientConns (runHandshakes u s hs) →
         c ∈ clientConns s ∨ c ∈ hs.map (fun x => x.1)) ∧
      (∀ hne : hs ≠ [], entriesFor (runHandshakes u s hs) u = [((hs.getLast hne).1, u)]) := by
  induction hs with
  | nil =>
      intro s hinv _ _
      exact ⟨hinv, fun c hc => Or.inl hc, fun hne => absurd rfl hne⟩
  | cons x rest ih =>
      intro s hinv hfresh hnodup
      obtain ⟨c, un, h⟩ := x
      have hstep := bindClient_step s u c un h hinv (hfresh _ (List.mem_cons_self _ _))
      have hrun : runHandshakes u s ((c, un, h) :: rest) =
          runHandshakes u (bindClient s c u un h).1 rest := rfl
      have hinv₁ : BindInv (bindClient s c u un h).1 u :=
        BindInv_of_bound _ _ _ hstep.1 hstep.2.1
      have hnodup' : c ∉ rest.map (fun x => x.1) ∧ (rest.map (fun x => x.1)).Nodup := by
        rw [List.map_cons] at hnodup
        exact List.nodup_cons.mp hnodup
      have hfresh₁ : ∀ y ∈ rest, y.1 ∉ clientConns (bindClient s c u un h).1 := by
        intro y hy hc
        rcases hstep.2.2 _ hc with he | hin
        · apply hnodup'.1
          rw [← he]
          exact List.mem_map.mpr ⟨y, hy, rfl⟩
        · exact hfresh y (List.mem_cons_of_mem _ hy) hin
      obtain ⟨ih1, ih2, ih3⟩ := ih (bindClient s c u un h).1 hinv₁ hfresh₁ hnodup'.2
      refine ⟨by rw [hrun]; exact ih1, ?_, ?_⟩
      · intro c' hc'
        rw [hrun] at hc'
        rcases ih2 c' hc' with hin | hin
        · rcases hstep.2.2 _ hin with he | hin₂
          · right; rw [he, List.map_cons]; exact List.mem_cons_self _ _
          · left; exact hin₂
        · right
          rw [List.map_cons]
          exact List.mem_cons_of_mem _ hin
      · intro hne
        rw [hrun]
        by_cases hrest : rest = []
        · subst hrest
          simpa using hstep.1
        · rw [ih3 hrest, List.getLast_cons hrest]

/-- C1: starting from any state satisfying the binding invariant for
identity `u` (the fresh server trivially does), a sequence of completed
handshakes presenting `u` on pairwise-distinct fresh connections keeps
at most one connection-table entry referencing `u` after every prefix,
and once all handshakes settle the one entry is the connection of the
most recently completed handshake (first two conjuncts); mechanism: a
handshake arriving while `u` is connected through entry `(cold, u)`
closes exactly `cold`, removes its entry, and installs its own binding
(third conjunct). -/
theorem at_most_one_binding (s₀ : ServerState) (u : String)
    (hs : List (Nat × String × Option String))
    (hinv : BindInv s₀ u)
    (hnodup : (hs.map (fun x => x.1)).Nodup)
    (hfresh : ∀ x ∈ hs, x.1 ∉ clientConns s₀) :
    (∀ k : Nat, (entriesFor (runHandshakes u s₀ (hs.take k)) u).length ≤ 1) ∧
    (∀ hne : hs ≠ [], entriesFor (runHandshakes u s₀ hs) u = [((hs.getLast hne).1, u)]) ∧
    (∀ (s : ServerState) (conn cold : Nat) (un : String) (h : Option String) (p : Player),
       BindInv s u → conn ∉ clientConns s →
       dictGet? s.players u = some p → p.connected = true →
       entriesFor s u = [(cold, u)] →
       (bindClient s conn u un h).2 = [cold] ∧
       dictGet? (bindClient s conn u un h).1.clients cold = none ∧
       entriesFor (bindClient s conn u un h).1 u = [(conn, u)]) := by
  refine ⟨?_, ?_, ?_⟩
  · intro k
    have hsub : List.Sublist ((hs.take k).map (fun x => x.1)) (hs.map (fun x => x.1)) := by
      rw [List.map_take]
      exact List.take_sublist k _
    have hk := runHandshakes_props u (hs.take k) s₀ hinv
      (fun x hx => hfresh x (List.mem_of_mem_take hx)) (hnodup.sublist hsub)
    exact hk.1.1
  · exact (runHandshakes_props u hs s₀ hinv hfresh hnodup).2.2
  · intro s conn cold un h p hinv' hfresh' hp hcon hent
    have hfind : s.clients.find? (fun q => decide (q.2 = u)) = some (cold, u) :=
      find?_eq_some_of_filter_eq_singleton _ _ _ hent
    have hone : bindClient s conn u un h =
        ({ s with players := dictSet s.players u
                    { p with connected := true, username := un, hat := h }
                  clients := dictSet (dictDel s.clients cold) conn u
                  debug_messages := s.debug_messages ++
                    ["Client with UUID " ++ u ++
                     " is already connected. Disconnecting the existing connection."] ++
                    ["Player " ++ un ++ " reconnected with UUID " ++ u ++ "."] },
         [cold]) := by
      simp [bindClient, hp, hcon, hfind]
    have hne : cold ≠ conn := by
      intro he
      apply hfresh'
      rw [← he]
      have hmem : (cold, u) ∈ s.clients := by
        apply List.mem_of_mem_filter (p := fun q => decide (q.2 = u))
        show (cold, u) ∈ entriesFor s u
        rw [hent]
        exact List.mem_singleton.mpr rfl
      exact List.mem_map.mpr ⟨(cold, u), hmem, rfl⟩
    have hdelfresh : ∀ q ∈ dictDel s.clients cold, q.1 ≠ conn := by
      intro q hq he
      apply hfresh'
      exact List.mem_map.mpr ⟨q, List.mem_of_mem_filter hq, he⟩
    have happend₂ : dictSet (dictDel s.clients cold) conn u =
        dictDel s.clients cold ++ [(conn, u)] :=
      dictSet_of_not_mem _ _ _ hdelfresh
    refine ⟨by rw [hone], ?_, ?_⟩
    · rw [hone]
      show dictGet? (dictSet (dictDel s.clients cold) conn u) cold = none
      rw [dictGet?_dictSet_ne _ _ _ _ hne]
      exact dictGet?_dictDel_self _ _
    · rw [hone]
      show (dictSet (dictDel s.clients cold) conn u).filter (fun q => decide (q.2 = u)) = _
      rw [happend₂, entriesFor_append_self,
          entriesFor_dictDel_head s.clients (cold, u) u hent]
      rfl

/-- Witness for C1: two handshakes for `"u1"` on the fresh server leave
exactly the second connection bound. -/
theorem at_most_one_binding_witness :
    BindInv wEmpty "u1" ∧
    entriesFor (runHandshakes "u1" wEmpty
      [(1, "Alice", none), (2, "Alice2", none)]) "u1" = [(2, "u1")] := by
  have hinv : BindInv wEmpty "u1" := by
    refine ⟨by decide, ?_, ?_⟩
    · intro p hp _
      exact Option.noConfusion hp
    · intro _
      rfl
  refine ⟨hinv, ?_⟩
  have h := (at_most_one_binding wEmpty "u1" [(1, "Alice", none), (2, "Alice2", none)]
    hinv (by decide) (by decide)).2.1 (by decide)
  simpa using h

/-! ## Claim C4: broadcast partial-failure isolation -/

theorem broadcastFailStep_clients (s : ServerState) (c : Nat) :
    (broadcastFailStep s c).clients = dictDel s.clients c := by
  unfold broadcastFailStep
  cases hu : dictGet? s.clients c with
  | none => rfl
  | some u =>
      cases hp : dictGet? s.players u with
      | none => simp [hp]
      | some p => simp [hp]

theorem broadcastFailStep_players_cases (s : ServerState) (c : Nat) :
    (broadcastFailStep s c).players = s.players ∨
    ∃ u p, dictGet? s.players u = some p ∧
      (broadcastFailStep s c).players = dictSet s.players u { p with connected := false } := by
  unfold broadcastFailStep
  cases hu : dictGet? s.clients c with
  | none => exact Or.inl rfl
  | some u =>
      cases hp : dictGet? s.players u with
      | none => exact Or.inl (by simp [hp])
      | some p => exact Or.inr ⟨u, p, hp, by simp [hp]⟩

theorem broadcastFailStep_players_some (s : ServerState) (t : Nat) (u : String)
    (h : ∃ p, dictGet? s.players u = some p) :
    ∃ p', dictGet? (broadcastFailStep s t).players u = some p' := by
  rcases broadcastFailStep_players_cases s t with hsame | ⟨u', q, hq, heq⟩
  · rw [hsame]; exact h
  · rw [heq]
    rcases h with ⟨p, hp⟩
    by_cases huu : u = u'
    · subst huu
      exact ⟨_, dictGet?_dictSet_self _ _ _⟩
    · rw [dictGet?_dictSet_ne _ _ _ _ huu]
      exact ⟨p, hp⟩

theorem broadcastFailStep_stays_disconnected (s : ServerState) (t : Nat) (u : String)
    (h : ∃ p, dictGet? s.players u = some p ∧ p.connected = false) :
    ∃ p', dictGet? (broadcastFailStep s t).players u = some p' ∧ p'.connected = false := by
  rcases broadcastFailStep_players_cases s t with hsame | ⟨u', q, hq, heq⟩
  · rw [hsame]; exact h
  · rw [heq]
    rcases h with ⟨p, hp, hpc⟩
    by_cases huu : u = u'
    · subst huu
      exact ⟨_, dictGet?_dictSet_self _ _ _, rfl⟩
    · rw [dictGet?_dictSet_ne _ _ _ _ huu]
      exact ⟨p, hp, hpc⟩

theorem broadcastSendLoop_sent (fails : Nat → Bool) (frame : Snapshot)
    (ts : List Nat) : ∀ s : ServerState,
    (broadcastSendLoop fails frame ts s).2 =
      (ts.filter (fun c => !(fails c))).map (fun c => (c, frame)) := by
  induction ts with
  | nil => intro s; rfl
  | cons c rest ih =>
      intro s
      by_cases hc : fails c
      · simp [broadcastSendLoop, hc, ih]
      · simp [broadcastSendLoop, hc, ih]

theorem broadcastSendLoop_clients_none (fails : Nat → Bool) (frame : Snapshot)
    (ts : List Nat) : ∀ (s : ServerState) (c : Nat),
    dictGet? s.clients c = none →
    dictGet? ((broadcastSendLoop fails frame ts s).1).clients c = none := by
  induction ts with
  | nil => exact fun s c h => h
  | cons t rest ih =>
      intro s c h
      by_cases ht : fails t
      · simp only [broadcastSendLoop, ht, if_true]
        apply ih
        rw [broadcastFailStep_clients]
        by_cases hct : c = t
        · subst hct; exact dictGet?_dictDel_self _ _
        · rw [dictGet?_dictDel_ne _ _ _ hct]; exact h
      · simp only [broadcastSendLoop, ht, if_false, Bool.false_eq_true]
        exact ih s c h

theorem broadcastSendLoop_failed_unbound (fails : Nat → Bool) (frame : Snapshot)
    (ts : List Nat) : ∀ (s : ServerState) (c : Nat),
    c ∈ ts → fails c = true →
    dictGet? ((broadcastSendLoop fails frame ts s).1).clients c = none := by
  induction ts with
  | nil => intro s c h; exact absurd h (List.not_mem_nil c)
  | cons t rest ih =>
      intro s c hmem hc
      by_cases hct : c = t
      · subst hct
        simp only [broadcastSendLoop, hc, if_true]
        apply broadcastSendLoop_clients_none
        rw [broadcastFailStep_clients]
        exact dictGet?_dictDel_self _ _
      · have hrest : c ∈ rest := by
          rcases List.mem_cons.mp hmem with h | h
          · exact absurd h hct
          · exact h
        by_cases ht : fails t
        · simp only [broadcastSendLoop, ht, if_true]
          exact ih _ c hrest hc
        · simp only [broadcastSendLoop, ht, if_false, Bool.false_eq_true]
          exact ih s c hrest hc

theorem broadcastSendLoop_stays_disconnected (fails : Nat → Bool) (frame : Snapshot)
    (ts : List Nat) : ∀ (s : ServerState) (u : String),
    (∃ p, dictGet? s.players u = some p ∧ p.connected = false) →
    ∃ p', dictGet? ((broadcastSendLoop fails frame ts s).1).players u = some p' ∧
      p'.connected = false := by
  induction ts with
  | nil => exact fun s u h => h
  | cons t rest ih =>
      intro s u h
      by_cases ht : fails t
      · simp only [broadcastSendLoop, ht, if_true]
        exact ih _ u (broadcastFailStep_stays_disconnected s t u h)
      · simp only [broadcastSendLoop, ht, if_false, Bool.false_eq_true]
        exact ih s u h

theorem broadcastSendLoop_marks_disconnected (fails : Nat → Bool) (frame : Snapshot)
    (ts : List Nat) : ∀ (s : ServerState) (c : Nat) (u : String),
    c ∈ ts → fails c = true → dictGet? s.clients c = some u →
    (∃ p, dictGet? s.players u = some p) →
    ∃ p', dictGet? ((broadcastSendLoop fails frame ts s).1).players u = some p' ∧
      p'.connected = false := by
  induction ts with
  | nil => intro s c u h; exact absurd h (List.not_mem_nil c)
  | cons t rest ih =>
      intro s c u hmem hc hcu hex
      by_cases hct : c = t
      · subst hct
        simp only [broadcastSendLoop, hc, if_true]
        apply broadcastSendLoop_stays_disconnected
        rcases hex with ⟨p, hp⟩
        refine ⟨{ p with connected := false }, ?_, rfl⟩
        simp only [broadcastFailStep, hcu, hp]
        exact dictGet?_dictSet_self _ _ _
      · have hrest : c ∈ rest := by
          rcases List.mem_cons.mp hmem with h | h
          · exact absurd h hct
          · exact h
        by_cases ht : fails t
        · simp only [broadcastSendLoop, ht, if_true]
          apply ih _ c u hrest hc
          · rw [broadcastFailStep_clients, dictGet?_dictDel_ne _ _ _ hct]
            exact hcu
          · exact broadcastFailStep_players_some s t u hex
        · simp only [broadcastSendLoop, ht, if_false, Bool.false_eq_true]
          exact ih s c u hrest hc hcu hex

theorem broadcastSendLoop_nonfailing_kept (fails : Nat → Bool) (frame : Snapshot)
    (ts : List Nat) : ∀ (s : ServerState) (c : Nat) (u : String),
    dictGet? s.clients c = some u → (fails c = false ∨ c ∉ ts) →
    dictGet? ((broadcastSendLoop fails frame ts s).1).clients c = some u := by
  induction ts with
  | nil => intro s c u h _; exact h
  | cons t rest ih =>
      intro s c u hcu hcase
      have hrest : fails c = false ∨ c ∉ rest := by
        rcases hcase with h | h
        · exact Or.inl h
        · exact Or.inr (fun hm => h (List.mem_cons_of_mem _ hm))
      by_cases ht : fails t
      · have hne : c ≠ t := by
          intro he
          subst he
          rcases hcase with h | h
          · rw [ht] at h; cases h
          · exact h (List.mem_cons_self _ _)
        simp only [broadcastSendLoop, ht, if_true]
        apply ih _ c u ?_ hrest
        rw [broadcastFailStep_clients, dictGet?_dictDel_ne _ _ _ hne]
        exact hcu
      · simp only [broadcastSendLoop, ht, if_false, Bool.false_eq_true]
        exact ih s c u hcu hrest

/-- C4: during one broadcast pass over targets `ts`, (i) every target
whose send does not raise receives the identical frame serialized from
the pre-pass state, in order; (ii) a target whose send raises has its
connection-table entry removed and, when it was bound to an existing
player, that player ends the pass marked disconnected; (iii) the entries
of all other targets (and of non-targets) survive the pass. -/
theorem broadcast_isolation (fails : Nat → Bool) (s : ServerState) (ts : List Nat) :
    ((broadcast_game_state fails s (some ts)).2.2 =
       (ts.filter (fun c => !(fails c))).map (fun c => (c, serializeSnapshot s))) ∧
    (∀ c u, c ∈ ts → fails c = true → dictGet? s.clients c = some u →
       dictGet? ((broadcast_game_state fails s (some ts)).1).clients c = none ∧
       ((∃ p, dictGet? s.players u = some p) →
         ∃ p', dictGet? ((broadcast_game_state fails s (some ts)).1).players u = some p' ∧
           p'.connected = false)) ∧
    (∀ c u, dictGet? s.clients c = some u → (fails c = false ∨ c ∉ ts) →
       dictGet? ((broadcast_game_state fails s (some ts)).1).clients c = some u) := by
  refine ⟨?_, ?_, ?_⟩
  · show (broadcastSendLoop fails (serializeSnapshot s) ts s).2 = _
    exact broadcastSendLoop_sent fails (serializeSnapshot s) ts s
  · intro c u hmem hc hcu
    constructor
    · show dictGet? ((broadcastSendLoop fails (serializeSnapshot s) ts s).1).clients c = none
      exact broadcastSendLoop_failed_unbound fails _ ts s c hmem hc
    · intro hex
      show ∃ p', dictGet?
          ((broadcastSendLoop fails (serializeSnapshot s) ts s).1).players u = some p' ∧
          p'.connected = false
      exact broadcastSendLoop_marks_disconnected fails _ ts s c u hmem hc hcu hex
  · intro c u hcu hcase
    show dictGet? ((broadcastSendLoop fails (serializeSnapshot s) ts s).1).clients c = some u
    exact broadcastSendLoop_nonfailing_kept fails _ ts s c u hcu hcase

/-- Witness for C4: three bound connections, the send to connection 2
raises; connections 1 and 3 still receive the one serialized frame, and
connection 2 ends unbound with its player marked disconnected. -/
theorem broadcast_isolation_witness :
    ((broadcast_game_state failOnly2 wState3 (some [1, 2, 3])).2.2 =
       [(1, serializeSnapshot wState3), (3, serializeSnapshot wState3)]) ∧
    dictGet? ((broadcast_game_state failOnly2 wState3 (some [1, 2, 3])).1).clients 2 =
      none ∧
    (∃ p', dictGet? ((broadcast_game_state failOnly2 wState3 (some [1, 2, 3])).1).players
        "u2" = some p' ∧ p'.connected = false) ∧
    dictGet? ((broadcast_game_state failOnly2 wState3 (some [1, 2, 3])).1).clients 1 =
      some "u1" ∧
    dictGet? ((broadcast_game_state failOnly2 wState3 (some [1, 2, 3])).1).clients 3 =
      some "u3" := by
  have h := broadcast_isolation failOnly2 wState3 [1, 2, 3]
  refine ⟨?_, ?_, ?_, ?_, ?_⟩
  · rw [h.1]
    simp [failOnly2]
  · exact (h.2.1 2 "u2" (by decide) rfl rfl).1
  · exact (h.2.1 2 "u2" (by decide) rfl rfl).2 ⟨wPlayer2, rfl⟩
  · exact h.2.2 1 "u1" rfl (Or.inl rfl)
  · exact h.2.2 3 "u3" rfl (Or.inl rfl)

/-! ## Claim C8: command locking discipline -/

/-- Counterexample to C8 as stated: on a concrete world, `set_speed`
mutates the store (the target's speed becomes 250) yet its trace holds
the store lock only during the target lookup — the speed assignment
itself happens with no lock held, so not every mutating command mutates
under the lock. -/
theorem set_speed_unlocked_counterexample :
    hasMut (set_speed noFail wState ["u1", "250"]).2 = true ∧
    mutsLocked (set_speed noFail wState ["u1", "250"]).2 = false ∧
    (∃ q, dictGet? (set_speed noFail wState ["u1", "250"]).1.players "u1" = some q ∧
       q.speed = 250) := by
  have h250 : pyFloat? "250" = some 250 := by decide
  have hfind : get_player_by_identifier wState "u1" = some ("u1", wPlayer) := rfl
  refine ⟨?_, ?_, ⟨{ wPlayer with speed := 250 }, ?_, rfl⟩⟩
  · simp only [set_speed, h250, hfind]
    rfl
  · simp only [set_speed, h250, hfind]
    rfl
  · simp only [set_speed, h250, hfind]
    rw [broadcast_game_state_noFail]
    show dictGet? (dictSet wState.players "u1" { wPlayer with speed := 250 }) "u1" = _
    exact dictGet?_dictSet_self _ _ _

/-- C8 (amended): on its success path every mutating operator command
triggers a broadcast cycle (to all bound connections) after its
mutation, but the lock discipline differs by command: teleport/setpos,
add, kick, and make_platform mutate while holding the store lock; ban
inserts into the ban set outside the lock (only its connection teardown
is locked); and set_speed, freeze, unfreeze, smite, launch, give_hat,
change_gravity, and broadcast perform their mutations with no lock held
(the lock is held only inside the target lookup). -/
theorem command_mutation_discipline :
    (∀ (fails : Nat → Bool) (s : ServerState) (i ax ay : String) (x y : ℚ)
       (u : String) (p : Player),
       pyFloat? ax = some x → pyFloat? ay = some y →
       get_player_by_identifier s i = some (u, p) →
       mutsLocked (teleport_player fails s [i, ax, ay]).2 = true ∧
       hasMut (teleport_player fails s [i, ax, ay]).2 = true ∧
       bcastAfterMuts (teleport_player fails s [i, ax, ay]).2 = true) ∧
    (∀ (fails : Nat → Bool) (s : ServerState) (i ax ay : String) (x y : ℚ)
       (u : String) (p : Player),
       pyFloat? ax = some x → pyFloat? ay = some y →
       get_player_by_identifier s i = some (u, p) →
       mutsLocked (add_position fails s [i, ax, ay]).2 = true ∧
       hasMut (add_position fails s [i, ax, ay]).2 = true ∧
       bcastAfterMuts (add_position fails s [i, ax, ay]).2 = true) ∧
    (∀ (fails : Nat → Bool) (s : ServerState) (i u : String) (p : Player),
       get_player_by_identifier s i = some (u, p) →
       mutsLocked (kick_player fails s [i]).2 = true ∧
       hasMut (kick_player fails s [i]).2 = true ∧
       bcastAfterMuts (kick_player fails s [i]).2 = true) ∧
    (∀ (fails : Nat → Bool) (s : ServerState) (ax ay aw ah : String) (x y : ℚ)
       (w hh : Int),
       pyFloat? ax = some x → pyFloat? ay = some y →
       pyIntStr? aw = some w → pyIntStr? ah = some hh →
       mutsLocked (make_platform fails s [ax, ay, aw, ah]).2 = true ∧
       hasMut (make_platform fails s [ax, ay, aw, ah]).2 = true ∧
       bcastAfterMuts (make_platform fails s [ax, ay, aw, ah]).2 = true) ∧
    (∀ (fails : Nat → Bool) (s : ServerState) (i u : String) (p : Player),
       get_player_by_identifier s i = some (u, p) →
       mutsLocked (ban_player fails s [i]).2 = false ∧
       hasMut (ban_player fails s [i]).2 = true ∧
       bcastAfterMuts (ban_player fails s [i]).2 = true) ∧
    (∀ (fails : Nat → Bool) (s : ServerState) (i aspeed : String) (v : ℚ)
       (u : String) (p : Player),
       pyFloat? aspeed = some v →
       get_player_by_identifier s i = some (u, p) →
       mutsLocked (set_speed fails s [i, aspeed]).2 = false ∧
       hasMut (set_speed fails s [i, aspeed]).2 = true ∧
       bcastAfterMuts (set_speed fails s [i, aspeed]).2 = true) ∧
    (∀ (fails : Nat → Bool) (s : ServerState) (i u : String) (p : Player),
       get_player_by_identifier s i = some (u, p) →
       mutsLocked (freeze_player fails s [i]).2 = false ∧
       hasMut (freeze_player fails s [i]).2 = true ∧
       bcastAfterMuts (freeze_player fails s [i]).2 = true) ∧
    (∀ (fails : Nat → Bool) (s : ServerState) (i u : String) (p : Player),
       get_player_by_identifier s i = some (u, p) →
       mutsLocked (unfreeze_player fails s [i]).2 = false ∧
       hasMut (unfreeze_player fails s [i]).2 = true ∧
       bcastAfterMuts (unfreeze_player fails s [i]).2 = true) ∧
    (∀ (fails : Nat → Bool) (s : ServerState) (i u : String) (p : Player),
       get_player_by_identifier s i = some (u, p) →
       mutsLocked (smite_player fails s [i]).2 = false ∧
       hasMut (smite_player fails s [i]).2 = true ∧
       bcastAfterMuts (smite_player fails s [i]).2 = true) ∧
    (∀ (fails : Nat → Bool) (s : ServerState) (i u : String) (p : Player),
       get_player_by_identifier s i = some (u, p) →
       mutsLocked (launch_player fails s [i]).2 = false ∧
       hasMut (launch_player fails s [i]).2 = true ∧
       bcastAfterMuts (launch_player fails s [i]).2 = true) ∧
    (∀ (fails : Nat → Bool) (s : ServerState) (i hatName u : String) (p : Player),
       get_player_by_identifier s i = some (u, p) →
       mutsLocked (give_hat fails s [i, hatName]).2 = false ∧
       hasMut (give_hat fails s [i, hatName]).2 = true ∧
       bcastAfterMuts (give_hat fails s [i, hatName]).2 = true) ∧
    (∀ (fails : Nat → Bool) (s : ServerState) (i adir u : String) (p : Player),
       (pyLower adir = "up" ∨ pyLower adir = "down" ∨
        pyLower adir = "left" ∨ pyLower adir = "right") →
       get_player_by_identifier s i = some (u, p) →
       mutsLocked (change_gravity fails s [i, adir]).2 = false ∧
       hasMut (change_gravity fails s [i, adir]).2 = true ∧
       bcastAfterMuts (change_gravity fails s [i, adir]).2 = true) ∧
    (∀ (fails : Nat → Bool) (s : ServerState) (args : List String),
       args.isEmpty = false →
       mutsLocked (broadcast_message fails s args).2 = false ∧
       hasMut (broadcast_message fails s args).2 = true ∧
       bcastAfterMuts (broadcast_message fails s args).2 = true) := by
  refine ⟨?_, ?_, ?_, ?_, ?_, ?_, ?_, ?_, ?_, ?_, ?_, ?_, ?_⟩
  · intro fails s i ax ay x y u p hx hy hf
    simp only [teleport_player, hx, hy, hf]
    exact ⟨rfl, rfl, rfl⟩
  · intro fails s i ax ay x y u p hx hy hf
    simp only [add_position, hx, hy, hf]
    exact ⟨rfl, rfl, rfl⟩
  · intro fails s i u p hf
    simp only [kick_player, hf]
    cases hhit : s.clients.find? (fun q => decide (q.2 = p.uuid)) with
    | none => simp only [hhit]; exact ⟨rfl, rfl, rfl⟩
    | some q => simp only [hhit]; exact ⟨rfl, rfl, rfl⟩
  · intro fails s ax ay aw ah x y w hh hx hy hw hhh
    simp only [make_platform, make_platform_parsed, hx, hy, hw, hhh]
    exact ⟨rfl, rfl, rfl⟩
  · intro fails s i u p hf
    simp only [ban_player, hf]
    cases hhit : s.clients.find? (fun q => decide (q.2 = p.uuid)) with
    | none => simp only [hhit]; exact ⟨rfl, rfl, rfl⟩
    | some q => simp only [hhit]; exact ⟨rfl, rfl, rfl⟩
  · intro fails s i aspeed v u p hv hf
    simp only [set_speed, hv, hf]
    exact ⟨rfl, rfl, rfl⟩
  · intro fails s i u p hf
    simp only [freeze_player, hf]
    exact ⟨rfl, rfl, rfl⟩
  · intro fails s i u p hf
    simp only [unfreeze_player, hf]
    exact ⟨rfl, rfl, rfl⟩
  · intro fails s i u p hf
    simp only [smite_player, hf]
    exact ⟨rfl, rfl, rfl⟩
  · intro fails s i u p hf
    simp only [launch_player, hf]
    exact ⟨rfl, rfl, rfl⟩
  · intro fails s i hatName u p hf
    simp only [give_hat, hf]
    exact ⟨rfl, rfl, rfl⟩
  · intro fails s i adir u p hvalid hf
    simp only [change_gravity, hf]
    rw [if_pos hvalid]
    exact ⟨rfl, rfl, rfl⟩
  · intro fails s args hne
    simp only [broadcast_message, hne]
    exact ⟨rfl, rfl, rfl⟩

/-- Witness for C8 (amended): teleport mutates under the lock, freeze
does not; both broadcast after mutating. -/
theorem command_mutation_discipline_witness :
    (mutsLocked (teleport_player noFail wState ["u1", "7", "2"]).2 = true ∧
     hasMut (teleport_player noFail wState ["u1", "7", "2"]).2 = true ∧
     bcastAfterMuts (teleport_player noFail wState ["u1", "7", "2"]).2 = true) ∧
    (mutsLocked (freeze_player noFail wState ["u1"]).2 = false ∧
     hasMut (freeze_player noFail wState ["u1"]).2 = true ∧
     bcastAfterMuts (freeze_player noFail wState ["u1"]).2 = true) :=
  ⟨command_mutation_discipline.1 noFail wState "u1" "7" "2" 7 2 "u1" wPlayer
     (by decide) (by decide) rfl,
   command_mutation_discipline.2.2.2.2.2.2.1 noFail wState "u1" "u1" wPlayer rfl⟩

/-! ## Claim C9: a superseded connection's teardown is inert -/

/-- Teardown is the identity when the closing connection is no longer in
the connection table. -/
theorem teardown_not_bound (s : ServerState) (conn : Nat)
    (h : dictGet? s.clients conn = none) : teardown s conn = s := by
  simp only [teardown, h]
  rw [dictDel_of_not_mem _ _ h]

/-- C9: teardown flips a player's connected flag only when the closing
connection is still in the connection table (first conjunct: an unbound
connection's teardown changes nothing at all); consequently, after a
handshake on a fresh connection supersedes the single binding of a
connected identity, running the superseded connection's teardown leaves
the state untouched: the rebound player stays connected and the new
binding stays in place (second conjunct). -/
theorem superseded_teardown_inert :
    (∀ (s : ServerState) (conn : Nat),
       dictGet? s.clients conn = none → teardown s conn = s) ∧
    (∀ (s : ServerState) (cold cnew : Nat) (u un : String) (h : Option String) (p : Player),
       dictGet? s.players u = some p →
       p.connected = true →
       entriesFor s u = [(cold, u)] →
       cnew ∉ clientConns s →
       teardown (bindClient s cnew u un h).1 cold = (bindClient s cnew u un h).1 ∧
       (∃ q, dictGet? (bindClient s cnew u un h).1.players u = some q ∧ q.connected = true) ∧
       dictGet? (bindClient s cnew u un h).1.clients cnew = some u ∧
       (bindClient s cnew u un h).2 = [cold]) := by
  constructor
  · exact teardown_not_bound
  · intro s cold cnew u un h p hp hcon hent hfresh
    have hmem : (cold, u) ∈ s.clients := by
      have : (cold, u) ∈ entriesFor s u := by rw [hent]; exact List.mem_singleton.mpr rfl
      exact List.mem_of_mem_filter this
    have hne : cold ≠ cnew := by
      intro he
      apply hfresh
      rw [← he]
      exact List.mem_map.mpr ⟨(cold, u), hmem, rfl⟩
    have hfind : s.clients.find? (fun q => decide (q.2 = u)) = some (cold, u) :=
      find?_eq_some_of_filter_eq_singleton _ _ _ hent
    have hred : (bindClient s cnew u un h) =
        ({ s with players := dictSet s.players u { p with connected := true,
                                                          username := un, hat := h }
                  clients := dictSet (dictDel s.clients cold) cnew u
                  debug_messages := s.debug_messages ++
                    ["Client with UUID " ++ u ++
                     " is already connected. Disconnecting the existing connection."] ++
                    ["Player " ++ un ++ " reconnected with UUID " ++ u ++ "."] },
         [cold]) := by
      simp [bindClient, hp, hcon, hfind]
    have hcoldgone : dictGet? (bindClient s cnew u un h).1.clients cold = none := by
      rw [hred]
      show dictGet? (dictSet (dictDel s.clients cold) cnew u) cold = none
      rw [dictGet?_dictSet_ne _ _ _ _ hne]
      exact dictGet?_dictDel_self _ _
    refine ⟨teardown_not_bound _ _ hcoldgone,
            ⟨{ p with connected := true, username := un, hat := h }, ?_, rfl⟩, ?_, ?_⟩
    · rw [hred]
      exact dictGet?_dictSet_self _ _ _
    · rw [hred]
      exact dictGet?_dictSet_self _ _ _
    · rw [hred]

/-- Witness for C9: connection 1 of `wState` superseded by connection 2. -/
theorem superseded_teardown_inert_witness :
    teardown (bindClient wState 2 "u1" "Alice" none).1 1 =
      (bindClient wState 2 "u1" "Alice" none).1 ∧
    (∃ q, dictGet? (bindClient wState 2 "u1" "Alice" none).1.players "u1" = some q ∧
       q.connected = true) ∧
    dictGet? (bindClient wState 2 "u1" "Alice" none).1.clients 2 = some "u1" ∧
    (bindClient wState 2 "u1" "Alice" none).2 = [1] :=
  superseded_teardown_inert.2 wState 1 2 "u1" "Alice" none wPlayer
    rfl rfl rfl (by decide)

end GameServer
